import Mathlib

/-!
Shallow embedding of the host-side OpenCL orchestration layer of the
GuidedFilter repository (src/src/GuidedFilter/algorithms.cpp and
src/src/GuidedFilter/math.cpp), together with theorems settling the
frozen claims about it.

Modelling conventions:
* a `cl::Buffer` handle is an `Option Nat` (`none` is the null handle of a
  default-constructed buffer, `some id` a created buffer); buffer creation
  draws fresh ids from an explicit counter `n : Nat`, so handle assignment
  (`a.get (...) = b.get (...)` in the source) is plain equality of ids and
  involves no copy;
* a kernel is its positional-argument binding table: a map from argument
  index to bound value (`setArg` overwrites one slot);
* scalar `float` parameters are carried as `Rat` (no float arithmetic is
  needed by any claim; only which value sits in which slot matters);
* each C++ `init` is split into the validation of its `try` block
  (`...InitCheck`, an `Except`; the source logs and exits the process on
  failure) and the setup it performs afterwards (`...Init`, total);
* `run`/`write`/`read` return the list of operations they enqueue,
  each operation carrying its command queue, wait-list and completion
  event, mirroring the source's enqueue calls in order.
-/

/-- The staging policy `Staging` of common.hpp: `NONE`, `I`, `O`, `IO`. -/
inductive Staging
  | NONE
  | IN
  | OUT
  | INOUT
deriving DecidableEq, Repr

/-- A value bound to one positional kernel argument slot. -/
inductive KArg
  | buf : Option Nat → KArg
  | localMem : Int → KArg
  | uint : Nat → KArg
  | int : Int → KArg
  | float : Rat → KArg
deriving DecidableEq, Repr

/-- A kernel's argument binding table, indexed by argument position;
`none` marks a slot that has never been bound. -/
def KernelArgs := Nat → Option KArg

/-- The binding table of a freshly created kernel: no slot is bound. -/
def KernelArgs.empty : KernelArgs := fun _ => none

/-- Bind slot `i` of a kernel to value `v` (`cl::Kernel::setArg`). -/
def setArg (k : KernelArgs) (i : Nat) (v : KArg) : KernelArgs :=
  fun j => if j = i then some v else k j

/-- Look up the value currently bound to slot `i`. -/
def getArg (k : KernelArgs) (i : Nat) : Option KArg := k i

/-- Project a buffer argument out of slot `i`. -/
def getBufArg (k : KernelArgs) (i : Nat) : Option Nat :=
  match getArg k i with
  | some (.buf b) => b
  | _ => none

/-- Guarded buffer creation of the inits: `if (buf () == nullptr)
buf = cl::Buffer (...)` — create a fresh buffer only when the handle is
not already backed. -/
def guardedAlloc (b : Option Nat) (n : Nat) : Option Nat :=
  if b = none then some n else b

/-- The allocation counter after a guarded buffer creation. -/
def guardedBump (b : Option Nat) (n : Nat) : Nat :=
  if b = none then n + 1 else n

theorem guardedAlloc_ne_none (b : Option Nat) (n : Nat) :
    guardedAlloc b n ≠ none := by
  cases b <;> simp [guardedAlloc]

theorem guardedAlloc_keeps (b : Option Nat) (n : Nat) (h : b ≠ none) :
    guardedAlloc b n = b := by
  simp [guardedAlloc, h]

theorem guardedAlloc_none (n : Nat) : guardedAlloc none n = some n := rfl

attribute [simp] guardedAlloc_ne_none guardedAlloc_keeps guardedAlloc_none

/-- Names of the device kernels enqueued by the modelled stages. -/
inductive KName
  | inclusiveScan
  | inclusiveScanSums
  | addGroupSums
  | transposeK
  | boxFilterSATTr
  | boxFilterK
  | powK
  | multK
  | depthUshort2Float
  | gfAB
  | gfQ
deriving DecidableEq, Repr

/-- One enqueued kernel execution: which kernel, on which command queue,
with which wait-list of event ids and which completion event out-binding. -/
structure Op where
  kernel : KName
  queue : Nat
  waits : List Nat
  signal : Option Nat
deriving DecidableEq, Repr

/-- One enqueued buffer transfer (`enqueueWriteBuffer`/`enqueueReadBuffer`). -/
structure TransferOp where
  toDevice : Bool
  buffer : Option Nat
  waits : List Nat
  signal : Option Nat
deriving DecidableEq, Repr

theorem setArg_getArg (k : KernelArgs) (i : Nat) (v : KArg) :
    getArg (setArg k i v) i = some v := by
  simp [setArg, getArg]

theorem setArg_getArg_ne (k : KernelArgs) (i j : Nat) (v : KArg) (h : j ≠ i) :
    getArg (setArg k i v) j = getArg k j := by
  simp [setArg, getArg, h]

/-! ## Scan (per-row inclusive prefix sum), algorithms.cpp lines 2171-2444 -/

/-- State of a `Scan` stage: staging and device buffer handles, mapped
staging pointers (modelled as availability flags), the three kernels'
argument tables, and the scalar configuration. `wgMultiple` and `queue`
are fixed at construction. -/
structure ScanSt where
  hBufferIn : Option Nat := none
  hBufferOut : Option Nat := none
  dBufferIn : Option Nat := none
  dBufferSums : Option Nat := none
  dBufferOut : Option Nat := none
  hPtrIn : Bool := false
  hPtrOut : Bool := false
  kernelScan : KernelArgs := KernelArgs.empty
  kernelSumsScan : KernelArgs := KernelArgs.empty
  kernelAddSums : KernelArgs := KernelArgs.empty
  width : Nat := 0
  height : Nat := 0
  wgXdim : Nat := 0
  scaling : Rat := 0
  staging : Staging := Staging.NONE
  wgMultiple : Nat := 1
  queue : Nat := 0

/-- The `Scan::Memory` enumeration. -/
inductive ScanMemory
  | H_IN | H_OUT | D_IN | D_SUMS | D_OUT
deriving DecidableEq, Repr

/-- Number of work-groups per row: `ceil (width / (8 * wgMultiple))`
rounded up to a multiple of 4 when it is neither 1 nor already one
(algorithms.cpp lines 2227-2229). -/
def scanWgXdim (wgMultiple width : Nat) : Nat :=
  let w := (width + 8 * wgMultiple - 1) / (8 * wgMultiple)
  if w ≠ 1 ∧ w % 4 ≠ 0 then w + (4 - w % 4) else w

/-- The validation of `Scan::init`'s try block (lines 2233-2254): the
source logs the thrown message and exits the process. -/
def scanInitCheck (wgMultiple width : Nat) : Except String Unit :=
  if scanWgXdim wgMultiple width = 0 then
    Except.error "The array cannot have zero columns"
  else if width % 4 ≠ 0 then
    Except.error "The number of columns in the array must be a multiple of 4"
  else if width > (8 * wgMultiple) ^ 2 then
    Except.error "The current configuration of Scan supports arrays of up to (8 wgMultiple)^2 columns"
  else
    Except.ok ()

/-- Staging-buffer creation of `Scan::init` (lines 2265-2302), with the
fall-through `switch` on the policy flattened per case. -/
def scanStagingSetup (stg : Staging) (s : ScanSt) (n : Nat) : ScanSt × Nat :=
  match stg with
  | Staging.NONE => ({ s with hPtrIn := false, hPtrOut := false }, n)
  | Staging.IN =>
      let hIn := guardedAlloc s.hBufferIn n
      let n := guardedBump s.hBufferIn n
      ({ s with hBufferIn := hIn, hPtrIn := true, hPtrOut := false }, n)
  | Staging.OUT =>
      let hOut := guardedAlloc s.hBufferOut n
      let n := guardedBump s.hBufferOut n
      ({ s with hBufferOut := hOut, hPtrOut := true, hPtrIn := false }, n)
  | Staging.INOUT =>
      let hIn := guardedAlloc s.hBufferIn n
      let n := guardedBump s.hBufferIn n
      let hOut := guardedAlloc s.hBufferOut n
      let n := guardedBump s.hBufferOut n
      ({ s with hBufferIn := hIn, hBufferOut := hOut, hPtrIn := true, hPtrOut := true }, n)

/-- Setup part of `Scan::init` (lines 2219-2342) after the validation:
records the configuration, creates staging buffers per the policy and any
device buffer that is not already backed, and binds the kernel arguments. -/
def scanInit (w h : Nat) (scaling : Rat) (stg : Staging) (s : ScanSt) (n : Nat) :
    ScanSt × Nat :=
  let wgXdim := scanWgXdim s.wgMultiple w
  let s := { s with width := w, height := h, scaling := scaling,
                    staging := stg, wgXdim := wgXdim }
  let r := scanStagingSetup stg s n
  let s := r.1
  let n := r.2
  let dIn := guardedAlloc s.dBufferIn n
  let n := guardedBump s.dBufferIn n
  let dSums := guardedAlloc s.dBufferSums n
  let n := guardedBump s.dBufferSums n
  let dOut := guardedAlloc s.dBufferOut n
  let n := guardedBump s.dBufferOut n
  let s := { s with dBufferIn := dIn, dBufferSums := dSums, dBufferOut := dOut }
  if wgXdim = 1 then
    let k := setArg (setArg (setArg (setArg (setArg (setArg s.kernelScan
      0 (.buf dIn)) 1 (.buf dOut)) 2 (.localMem (2 * s.wgMultiple * 4)))
      3 (.buf dSums)) 4 (.uint (w / 4))) 5 (.float scaling)
    ({ s with kernelScan := k }, n)
  else
    let k := setArg (setArg (setArg (setArg (setArg (setArg s.kernelScan
      0 (.buf dIn)) 1 (.buf dOut)) 2 (.localMem (2 * s.wgMultiple * 4)))
      3 (.buf dSums)) 4 (.uint (w / 4))) 5 (.float scaling)
    let ks := setArg (setArg (setArg (setArg (setArg (setArg s.kernelSumsScan
      0 (.buf dSums)) 1 (.buf dSums)) 2 (.localMem (2 * s.wgMultiple * 4)))
      3 (.buf dSums)) 4 (.uint (wgXdim / 4))) 5 (.float 1)
    let ka := setArg (setArg (setArg s.kernelAddSums
      0 (.buf dSums)) 1 (.buf dOut)) 2 (.uint (w / 4))
    ({ s with kernelScan := k, kernelSumsScan := ks, kernelAddSums := ka }, n)

/-- `Scan::write` (lines 2356-2372): enqueues the host-to-device transfer
for `D_IN` when the staging policy includes the input direction, and is a
no-op otherwise. -/
def scanWrite (s : ScanSt) (mem : ScanMemory) (waits : List Nat)
    (signal : Option Nat) : Option TransferOp :=
  if s.staging = Staging.IN ∨ s.staging = Staging.INOUT then
    match mem with
    | ScanMemory.D_IN => some ⟨true, s.dBufferIn, waits, signal⟩
    | _ => none
  else none

/-- `Scan::read` (lines 2384-2399): enqueues the device-to-host transfer
for `H_OUT` and returns the staging pointer when the policy includes the
output direction; otherwise it is a no-op returning the null pointer. -/
def scanRead (s : ScanSt) (mem : ScanMemory) (waits : List Nat)
    (signal : Option Nat) : Option (TransferOp × Bool) :=
  if s.staging = Staging.OUT ∨ s.staging = Staging.INOUT then
    match mem with
    | ScanMemory.H_OUT => some (⟨false, s.dBufferOut, waits, signal⟩, s.hPtrOut)
    | _ => none
  else none

/-- `Scan::run` (lines 2407-2425): one kernel in the single-level path,
three in the multi-level path, all on the stage's queue; the wait-list is
attached to the first kernel and the completion event to the last. -/
def scanRun (s : ScanSt) (events : List Nat) (event : Option Nat) : List Op :=
  if s.wgXdim = 1 then
    [⟨KName.inclusiveScan, s.queue, events, event⟩]
  else
    [⟨KName.inclusiveScan, s.queue, events, none⟩,
     ⟨KName.inclusiveScanSums, s.queue, [], none⟩,
     ⟨KName.addGroupSums, s.queue, [], event⟩]

/-- `Scan::setScaling` (lines 2440-2444): patches kernel argument 5. -/
def scanSetScaling (v : Rat) (s : ScanSt) : ScanSt :=
  { s with scaling := v, kernelScan := setArg s.kernelScan 5 (.float v) }

/-! ## Transpose (tiled transposition), algorithms.cpp lines 2450-2652 -/

/-- State of a `Transpose` stage. `lSide` is the chosen side of the square
local workspace. -/
structure TransposeSt where
  hBufferIn : Option Nat := none
  hBufferOut : Option Nat := none
  dBufferIn : Option Nat := none
  dBufferOut : Option Nat := none
  hPtrIn : Bool := false
  hPtrOut : Bool := false
  kernel : KernelArgs := KernelArgs.empty
  width : Nat := 0
  height : Nat := 0
  lSide : Nat := 0
  staging : Staging := Staging.NONE
  queue : Nat := 0

/-- The `Transpose::Memory` enumeration. -/
inductive TransposeMemory
  | H_IN | H_OUT | D_IN | D_OUT
deriving DecidableEq, Repr

/-- The side-selection loop of `Transpose::init` (lines 2512-2514):
`for (lSide = 16; lSide > 0; lSide >>= 1) if (xN % lSide == 0 && yN % lSide == 0) break;`
unrolled over its iterations 16, 8, 4, 2, 1 (falling off the loop leaves 0,
which cannot happen since 1 divides everything). -/
def chooseSide (xN yN : Nat) : Nat :=
  if xN % 16 = 0 ∧ yN % 16 = 0 then 16
  else if xN % 8 = 0 ∧ yN % 8 = 0 then 8
  else if xN % 4 = 0 ∧ yN % 4 = 0 then 4
  else if xN % 2 = 0 ∧ yN % 2 = 0 then 2
  else if xN % 1 = 0 ∧ yN % 1 = 0 then 1
  else 0

/-- The try block of `Transpose::init` (lines 2496-2520): each work-item
handles a 4x4 block, so both dimensions must be positive multiples of 4;
on success the block computes the local workspace side. The source logs
the thrown message and exits the process on failure. -/
def transposeInitCheck (width height : Nat) : Except String Nat :=
  let xN := width / 4
  let yN := height / 4
  let xR := width % 4
  let yR := height % 4
  if xR ≠ 0 ∨ yR ≠ 0 ∨ xN = 0 ∨ yN = 0 then
    Except.error "The number of rows, and columns, in the array must be a multiple of 4 and a strictly positive number"
  else
    Except.ok (chooseSide xN yN)

/-- Staging-buffer creation of `Transpose::init` (lines 2534-2572). -/
def transposeStagingSetup (stg : Staging) (s : TransposeSt) (n : Nat) :
    TransposeSt × Nat :=
  match stg with
  | Staging.NONE => ({ s with hPtrIn := false, hPtrOut := false }, n)
  | Staging.IN =>
      let hIn := guardedAlloc s.hBufferIn n
      let n := guardedBump s.hBufferIn n
      ({ s with hBufferIn := hIn, hPtrIn := true, hPtrOut := false }, n)
  | Staging.OUT =>
      let hOut := guardedAlloc s.hBufferOut n
      let n := guardedBump s.hBufferOut n
      ({ s with hBufferOut := hOut, hPtrOut := true, hPtrIn := false }, n)
  | Staging.INOUT =>
      let hIn := guardedAlloc s.hBufferIn n
      let n := guardedBump s.hBufferIn n
      let hOut := guardedAlloc s.hBufferOut n
      let n := guardedBump s.hBufferOut n
      ({ s with hBufferIn := hIn, hBufferOut := hOut, hPtrIn := true, hPtrOut := true }, n)

/-- Setup part of `Transpose::init` (lines 2489-2584) after the try block:
staging buffers per the policy, device buffers only where not already
backed, and the three kernel arguments. -/
def transposeInit (w h : Nat) (stg : Staging) (s : TransposeSt) (n : Nat) :
    TransposeSt × Nat :=
  let lSide := chooseSide (w / 4) (h / 4)
  let s := { s with width := w, height := h, staging := stg, lSide := lSide }
  let r := transposeStagingSetup stg s n
  let s := r.1
  let n := r.2
  let dIn := guardedAlloc s.dBufferIn n
  let n := guardedBump s.dBufferIn n
  let dOut := guardedAlloc s.dBufferOut n
  let n := guardedBump s.dBufferOut n
  let s := { s with dBufferIn := dIn, dBufferOut := dOut }
  let k := setArg (setArg (setArg s.kernel
    0 (.buf dIn)) 1 (.buf dOut)) 2 (.localMem (4 * 4 * (lSide * lSide) * 4))
  ({ s with kernel := k }, n)

/-- `Transpose::run` (lines 2649-2652): a single kernel execution. -/
def transposeRun (s : TransposeSt) (events : List Nat) (event : Option Nat) :
    List Op :=
  [⟨KName.transposeK, s.queue, events, event⟩]

/-! ## Math::Mult and Math::Pown (math.cpp), Depth (algorithms.cpp 1006-1209) -/

/-- State of a `Math::Mult` stage (math.cpp lines 56-256). -/
structure MultSt where
  hBufferInA : Option Nat := none
  hBufferInB : Option Nat := none
  hBufferOut : Option Nat := none
  dBufferInA : Option Nat := none
  dBufferInB : Option Nat := none
  dBufferOut : Option Nat := none
  hPtrInA : Bool := false
  hPtrInB : Bool := false
  hPtrOut : Bool := false
  kernel : KernelArgs := KernelArgs.empty
  length : Nat := 0
  staging : Staging := Staging.NONE
  queue : Nat := 0

/-- The `Mult::Memory` enumeration. -/
inductive MultMemory
  | H_IN_A | H_IN_B | H_OUT | D_IN_A | D_IN_B | D_OUT
deriving DecidableEq, Repr

/-- The try block of `Mult::init` (math.cpp lines 105-117). -/
def multInitCheck (width height : Nat) : Except String Unit :=
  let length := width * height
  if length = 0 then
    Except.error "The image cannot have zeroed dimensions"
  else if length % 4 ≠ 0 then
    Except.error "The number of elements in the array has to be a multiple of 4"
  else
    Except.ok ()

/-- Setup part of `Mult::init` (math.cpp lines 99-183): staging buffers
per the policy (both input staging buffers under I/IO, the output one
under O/IO), unbacked device buffers, and the three kernel arguments. -/
def multInit (w h : Nat) (stg : Staging) (s : MultSt) (n : Nat) : MultSt × Nat :=
  let s := { s with length := w * h, staging := stg }
  let r :=
    match stg with
    | Staging.NONE => ({ s with hPtrInA := false, hPtrInB := false, hPtrOut := false }, n)
    | Staging.IN =>
        let hA := guardedAlloc s.hBufferInA n
        let n := guardedBump s.hBufferInA n
        let hB := guardedAlloc s.hBufferInB n
        let n := guardedBump s.hBufferInB n
        ({ s with hBufferInA := hA, hBufferInB := hB,
                  hPtrInA := true, hPtrInB := true, hPtrOut := false }, n)
    | Staging.OUT =>
        let hO := guardedAlloc s.hBufferOut n
        let n := guardedBump s.hBufferOut n
        ({ s with hBufferOut := hO, hPtrOut := true,
                  hPtrInA := false, hPtrInB := false }, n)
    | Staging.INOUT =>
        let hA := guardedAlloc s.hBufferInA n
        let n := guardedBump s.hBufferInA n
        let hB := guardedAlloc s.hBufferInB n
        let n := guardedBump s.hBufferInB n
        let hO := guardedAlloc s.hBufferOut n
        let n := guardedBump s.hBufferOut n
        ({ s with hBufferInA := hA, hBufferInB := hB, hBufferOut := hO,
                  hPtrInA := true, hPtrInB := true, hPtrOut := true }, n)
  let s := r.1
  let n := r.2
  let dA := guardedAlloc s.dBufferInA n
  let n := guardedBump s.dBufferInA n
  let dB := guardedAlloc s.dBufferInB n
  let n := guardedBump s.dBufferInB n
  let dO := guardedAlloc s.dBufferOut n
  let n := guardedBump s.dBufferOut n
  let s := { s with dBufferInA := dA, dBufferInB := dB, dBufferOut := dO }
  let k := setArg (setArg (setArg s.kernel 0 (.buf dA)) 1 (.buf dB)) 2 (.buf dO)
  ({ s with kernel := k }, n)

/-- `Mult::write` (math.cpp lines 197-218). Note the guard: the source
tests `staging == Staging::IO` only, so under `Staging::I` alone the call
is a no-op. -/
def multWrite (s : MultSt) (mem : MultMemory) (waits : List Nat)
    (signal : Option Nat) : Option TransferOp :=
  if s.staging = Staging.INOUT then
    match mem with
    | MultMemory.D_IN_A => some ⟨true, s.dBufferInA, waits, signal⟩
    | MultMemory.D_IN_B => some ⟨true, s.dBufferInB, waits, signal⟩
    | _ => none
  else none

/-- `Mult::read` (math.cpp lines 230-245). Note the guard: the source
tests `staging == Staging::IO` only, so under `Staging::O` alone the call
is a no-op returning the null pointer. -/
def multRead (s : MultSt) (mem : MultMemory) (waits : List Nat)
    (signal : Option Nat) : Option (TransferOp × Bool) :=
  if s.staging = Staging.INOUT then
    match mem with
    | MultMemory.H_OUT => some (⟨false, s.dBufferOut, waits, signal⟩, s.hPtrOut)
    | _ => none
  else none

/-- State of a `Math::Pown` stage (math.cpp lines 262-464). -/
structure PownSt where
  hBufferIn : Option Nat := none
  hBufferOut : Option Nat := none
  dBufferIn : Option Nat := none
  dBufferOut : Option Nat := none
  hPtrIn : Bool := false
  hPtrOut : Bool := false
  kernel : KernelArgs := KernelArgs.empty
  length : Nat := 0
  n : Int := 0
  staging : Staging := Staging.NONE
  queue : Nat := 0

/-- The `Pown::Memory` enumeration. -/
inductive PownMemory
  | H_IN | H_OUT | D_IN | D_OUT
deriving DecidableEq, Repr

/-- The try block of `Pown::init` (math.cpp lines 308-320). -/
def pownInitCheck (width height : Nat) : Except String Unit :=
  let length := width * height
  if length = 0 then
    Except.error "The image cannot have zeroed dimensions"
  else if length % 4 ≠ 0 then
    Except.error "The number of elements in the array has to be a multiple of 4"
  else
    Except.ok ()

/-- Setup part of `Pown::init` (math.cpp lines 302-377): staging buffers,
unbacked device buffers, and kernel arguments 0 (input buffer),
1 (output buffer) and 2 (the power `n`). -/
def pownInit (w h : Nat) (nPow : Int) (stg : Staging) (s : PownSt) (n : Nat) :
    PownSt × Nat :=
  let s := { s with length := w * h, n := nPow, staging := stg }
  let r :=
    match stg with
    | Staging.NONE => ({ s with hPtrIn := false, hPtrOut := false }, n)
    | Staging.IN =>
        let hIn := guardedAlloc s.hBufferIn n
        let n := guardedBump s.hBufferIn n
        ({ s with hBufferIn := hIn, hPtrIn := true, hPtrOut := false }, n)
    | Staging.OUT =>
        let hOut := guardedAlloc s.hBufferOut n
        let n := guardedBump s.hBufferOut n
        ({ s with hBufferOut := hOut, hPtrOut := true, hPtrIn := false }, n)
    | Staging.INOUT =>
        let hIn := guardedAlloc s.hBufferIn n
        let n := guardedBump s.hBufferIn n
        let hOut := guardedAlloc s.hBufferOut n
        let n := guardedBump s.hBufferOut n
        ({ s with hBufferIn := hIn, hBufferOut := hOut, hPtrIn := true, hPtrOut := true }, n)
  let s := r.1
  let n := r.2
  let dIn := guardedAlloc s.dBufferIn n
  let n := guardedBump s.dBufferIn n
  let dOut := guardedAlloc s.dBufferOut n
  let n := guardedBump s.dBufferOut n
  let s := { s with dBufferIn := dIn, dBufferOut := dOut }
  let k := setArg (setArg (setArg s.kernel 0 (.buf dIn)) 1 (.buf dOut)) 2 (.int nPow)
  ({ s with kernel := k }, n)

/-- `Pown::write` (math.cpp lines 391-407); like `Mult::write` it tests
`staging == Staging::IO` only. -/
def pownWrite (s : PownSt) (mem : PownMemory) (waits : List Nat)
    (signal : Option Nat) : Option TransferOp :=
  if s.staging = Staging.INOUT then
    match mem with
    | PownMemory.D_IN => some ⟨true, s.dBufferIn, waits, signal⟩
    | _ => none
  else none

/-- `Pown::read` (math.cpp lines 419-434); like `Mult::read` it tests
`staging == Staging::IO` only. -/
def pownRead (s : PownSt) (mem : PownMemory) (waits : List Nat)
    (signal : Option Nat) : Option (TransferOp × Bool) :=
  if s.staging = Staging.INOUT then
    match mem with
    | PownMemory.H_OUT => some (⟨false, s.dBufferOut, waits, signal⟩, s.hPtrOut)
    | _ => none
  else none

/-- `Pown::run` (math.cpp lines 442-445). -/
def pownRun (s : PownSt) (events : List Nat) (event : Option Nat) : List Op :=
  [⟨KName.powK, s.queue, events, event⟩]

/-- `Pown::setPower` (math.cpp lines 460-464): the source stores the new
power and calls `kernel.setArg (3, n)`, although `init` bound the power
to argument slot 2. -/
def pownSetPower (v : Int) (s : PownSt) : PownSt :=
  { s with n := v, kernel := setArg s.kernel 3 (.int v) }

/-- State of a `Depth<DepthConfig::USHORT_FLOAT>` stage
(algorithms.cpp lines 1006-1209). -/
structure DepthSt where
  hBufferIn : Option Nat := none
  hBufferOut : Option Nat := none
  dBufferIn : Option Nat := none
  dBufferOut : Option Nat := none
  hPtrIn : Bool := false
  hPtrOut : Bool := false
  kernel : KernelArgs := KernelArgs.empty
  length : Nat := 0
  scaling : Rat := 0
  staging : Staging := Staging.NONE
  queue : Nat := 0

/-- The try block of `Depth::init` (lines 1055-1067). -/
def depthInitCheck (width height : Nat) : Except String Unit :=
  let length := width * height
  if length = 0 then
    Except.error "The image cannot have zeroed dimensions"
  else if length % 4 ≠ 0 then
    Except.error "The number of elements in the array has to be a multiple of 4"
  else
    Except.ok ()

/-- Setup part of `Depth<DepthConfig::USHORT_FLOAT>::init` (lines
1046-1122): staging buffers, unbacked device buffers, and kernel
arguments 0 (input buffer), 1 (output buffer), 2 (the depth scaling). -/
def depthInit (w h : Nat) (scaling : Rat) (stg : Staging) (s : DepthSt) (n : Nat) :
    DepthSt × Nat :=
  let s := { s with length := w * h, scaling := scaling, staging := stg }
  let r :=
    match stg with
    | Staging.NONE => ({ s with hPtrIn := false, hPtrOut := false }, n)
    | Staging.IN =>
        let hIn := guardedAlloc s.hBufferIn n
        let n := guardedBump s.hBufferIn n
        ({ s with hBufferIn := hIn, hPtrIn := true, hPtrOut := false }, n)
    | Staging.OUT =>
        let hOut := guardedAlloc s.hBufferOut n
        let n := guardedBump s.hBufferOut n
        ({ s with hBufferOut := hOut, hPtrOut := true, hPtrIn := false }, n)
    | Staging.INOUT =>
        let hIn := guardedAlloc s.hBufferIn n
        let n := guardedBump s.hBufferIn n
        let hOut := guardedAlloc s.hBufferOut n
        let n := guardedBump s.hBufferOut n
        ({ s with hBufferIn := hIn, hBufferOut := hOut, hPtrIn := true, hPtrOut := true }, n)
  let s := r.1
  let n := r.2
  let dIn := guardedAlloc s.dBufferIn n
  let n := guardedBump s.dBufferIn n
  let dOut := guardedAlloc s.dBufferOut n
  let n := guardedBump s.dBufferOut n
  let s := { s with dBufferIn := dIn, dBufferOut := dOut }
  let k := setArg (setArg (setArg s.kernel 0 (.buf dIn)) 1 (.buf dOut)) 2 (.float scaling)
  ({ s with kernel := k }, n)

/-- `Depth<DepthConfig::USHORT_FLOAT>::setScaling` (lines 1205-1209): the
source stores the new scaling and calls `kernel.setArg (3, scaling)`,
although `init` bound the scaling to argument slot 2. -/
def depthSetScaling (v : Rat) (s : DepthSt) : DepthSt :=
  { s with scaling := v, kernel := setArg s.kernel 3 (.float v) }

/-! ## SAT (summed-area table), algorithms.cpp lines 2663-2878 -/

/-- State of a `SAT` stage: its own staging buffers plus the four child
stages `scanRows`, `transpose1`, `scanColumns`, `transpose2`; all children
share the stage's single queue (same `CLEnvInfo`). `transposed` is fixed
at construction. -/
structure SATSt where
  hBufferIn : Option Nat := none
  hBufferOut : Option Nat := none
  hPtrIn : Bool := false
  hPtrOut : Bool := false
  scanRows : ScanSt := {}
  scanColumns : ScanSt := {}
  transpose1 : TransposeSt := {}
  transpose2 : TransposeSt := {}
  transposed : Bool := true
  width : Nat := 0
  height : Nat := 0
  scaling : Rat := 0
  staging : Staging := Staging.NONE
  queue : Nat := 0

/-- The `SAT::Memory` enumeration. -/
inductive SATMemory
  | H_IN | H_OUT | D_IN | D_OUT
deriving DecidableEq, Repr

/-- The `SAT` constructor (lines 2663-2671): all four children are built
on the same environment info, hence the same queue; `transposed` defaults
to `true` at the declaration (algorithms.hpp line 1145). -/
def SATSt.construct (transposed : Bool) (wgMultiple q : Nat) : SATSt :=
  { scanRows := { wgMultiple := wgMultiple, queue := q },
    scanColumns := { wgMultiple := wgMultiple, queue := q },
    transpose1 := { queue := q },
    transpose2 := { queue := q },
    transposed := transposed,
    queue := q }

/-- The try block of `SAT::init` (lines 2715-2724). -/
def satInitCheck (width height : Nat) : Except String Unit :=
  if width = 0 ∨ height = 0 then
    Except.error "The image cannot have zeroed dimensions"
  else
    Except.ok ()

/-- Staging-buffer creation of `SAT::init` (lines 2726-2764). -/
def satStagingSetup (stg : Staging) (s : SATSt) (n : Nat) : SATSt × Nat :=
  match stg with
  | Staging.NONE => ({ s with hPtrIn := false, hPtrOut := false }, n)
  | Staging.IN =>
      let hIn := guardedAlloc s.hBufferIn n
      let n := guardedBump s.hBufferIn n
      ({ s with hBufferIn := hIn, hPtrIn := true, hPtrOut := false }, n)
  | Staging.OUT =>
      let hOut := guardedAlloc s.hBufferOut n
      let n := guardedBump s.hBufferOut n
      ({ s with hBufferOut := hOut, hPtrOut := true, hPtrIn := false }, n)
  | Staging.INOUT =>
      let hIn := guardedAlloc s.hBufferIn n
      let n := guardedBump s.hBufferIn n
      let hOut := guardedAlloc s.hBufferOut n
      let n := guardedBump s.hBufferOut n
      ({ s with hBufferIn := hIn, hBufferOut := hOut, hPtrIn := true, hPtrOut := true }, n)

/-- Setup part of `SAT::init` (lines 2708-2780): after its own staging
buffers, it initializes `scanRows` on (width, height), assigns
`transpose1`'s input handle to `scanRows`'s output handle and gives
`transpose1` a freshly created output buffer, initializes `transpose1`,
assigns `scanColumns`'s input handle to `transpose1`'s output handle,
initializes `scanColumns` on the swapped dimensions with scaling 1, and,
only when `transposed` is false, wires and initializes `transpose2`. -/
def satInit (w h : Nat) (scaling : Rat) (stg : Staging) (s : SATSt) (n : Nat) :
    SATSt × Nat :=
  let s := { s with width := w, height := h, scaling := scaling, staging := stg }
  let r := satStagingSetup stg s n
  let s := r.1
  let n := r.2
  let rr := scanInit w h scaling Staging.NONE s.scanRows n
  let rows := rr.1
  let n := rr.2
  let s := { s with scanRows := rows }
  let t1 := { s.transpose1 with dBufferIn := s.scanRows.dBufferOut,
                                dBufferOut := some n }
  let n := n + 1
  let rt := transposeInit w h Staging.NONE t1 n
  let t1 := rt.1
  let n := rt.2
  let s := { s with transpose1 := t1 }
  let cols := { s.scanColumns with dBufferIn := s.transpose1.dBufferOut }
  let rc := scanInit h w 1 Staging.NONE cols n
  let cols := rc.1
  let n := rc.2
  let s := { s with scanColumns := cols }
  if s.transposed then (s, n)
  else
    let t2 := { s.transpose2 with dBufferIn := s.scanColumns.dBufferOut }
    let rt2 := transposeInit h w Staging.NONE t2 n
    let t2 := rt2.1
    let n := rt2.2
    ({ s with transpose2 := t2 }, n)

/-- `SAT::get` (lines 2679-2693): `D_IN` is `scanRows`'s input handle and
`D_OUT` is `scanColumns`'s output handle in the transposed configuration,
`transpose2`'s output handle otherwise. -/
def satGet (s : SATSt) (mem : SATMemory) : Option Nat :=
  match mem with
  | SATMemory.H_IN => s.hBufferIn
  | SATMemory.H_OUT => s.hBufferOut
  | SATMemory.D_IN => s.scanRows.dBufferIn
  | SATMemory.D_OUT =>
      if s.transposed then s.scanColumns.dBufferOut else s.transpose2.dBufferOut

/-- `SAT::write` (lines 2794-2811). -/
def satWrite (s : SATSt) (mem : SATMemory) (waits : List Nat)
    (signal : Option Nat) : Option TransferOp :=
  if s.staging = Staging.IN ∨ s.staging = Staging.INOUT then
    match mem with
    | SATMemory.D_IN => some ⟨true, s.scanRows.dBufferIn, waits, signal⟩
    | _ => none
  else none

/-- `SAT::read` (lines 2823-2843). -/
def satRead (s : SATSt) (mem : SATMemory) (waits : List Nat)
    (signal : Option Nat) : Option (TransferOp × Bool) :=
  if s.staging = Staging.OUT ∨ s.staging = Staging.INOUT then
    match mem with
    | SATMemory.H_OUT =>
        if s.transposed then
          some (⟨false, s.scanColumns.dBufferOut, waits, signal⟩, s.hPtrOut)
        else
          some (⟨false, s.transpose2.dBufferOut, waits, signal⟩, s.hPtrOut)
    | _ => none
  else none

/-- `SAT::run` (lines 2851-2859): `scanRows.run (events)` (the out-event
parameter defaults to null), `transpose1.run ()`, `scanColumns.run ()`,
and only when `transposed` is false `transpose2.run (nullptr, event)`.
In the transposed configuration the `event` parameter is never used. -/
def satRun (s : SATSt) (events : List Nat) (event : Option Nat) : List Op :=
  scanRun s.scanRows events none ++
  transposeRun s.transpose1 [] none ++
  scanRun s.scanColumns [] none ++
  (if s.transposed then [] else transposeRun s.transpose2 [] event)

/-- `SAT::setScaling` (lines 2874-2878). -/
def satSetScaling (v : Rat) (s : SATSt) : SATSt :=
  { s with scaling := v, scanRows := scanSetScaling v s.scanRows }

/-! ## BoxFilterSAT and direct BoxFilter, algorithms.cpp lines 2884-3435 -/

/-- State of a `BoxFilterSAT` stage: its `sat` child (constructed with the
default `transposed = true`, matching the `boxFilterSAT_Tr` kernel), its
own output buffer, and the `boxFilterSAT_Tr` kernel arguments. The input
buffer is `sat`'s `D_IN` handle. -/
structure BFSATSt where
  hBufferIn : Option Nat := none
  hBufferOut : Option Nat := none
  dBufferOut : Option Nat := none
  hPtrIn : Bool := false
  hPtrOut : Bool := false
  kernel : KernelArgs := KernelArgs.empty
  sat : SATSt := {}
  width : Nat := 0
  height : Nat := 0
  radius : Int := 0
  scaling : Rat := 0
  staging : Staging := Staging.NONE
  queue : Nat := 0

/-- The `BoxFilterSAT` constructor (lines 2884-2936): the `sat` child uses
the same environment info (same queue) and the default `transposed = true`. -/
def BFSATSt.construct (wgMultiple q : Nat) : BFSATSt :=
  { sat := SATSt.construct true wgMultiple q, queue := q }

/-- The try block of `BoxFilterSAT::init` (lines 2982-3005); the work-group
tile is fixed at `lXdim = lYdim = 16` (algorithms.hpp lines 1267-1268). -/
def bfsatInitCheck (width height : Nat) : Except String Unit :=
  if width = 0 ∨ height = 0 then
    Except.error "The image cannot have zeroed dimensions"
  else if height % 16 ≠ 0 then
    Except.error "The image width has to be a multiple of 16"
  else if width % 16 ≠ 0 then
    Except.error "The image height has to be a multiple of 16"
  else
    Except.ok ()

/-- Writes the input-buffer handle of a `BoxFilterSAT`, i.e. the effect of
assigning through `get (BoxFilterSAT::Memory::D_IN)`, which resolves to
`sat.get (SAT::Memory::D_IN)` = `scanRows`'s input handle. -/
def bfsatSetInput (b : Option Nat) (s : BFSATSt) : BFSATSt :=
  { s with sat := { s.sat with scanRows := { s.sat.scanRows with dBufferIn := b } } }

/-- Staging-buffer creation of `BoxFilterSAT::init` (lines 3007-3045). -/
def bfsatStagingSetup (stg : Staging) (s : BFSATSt) (n : Nat) : BFSATSt × Nat :=
  match stg with
  | Staging.NONE => ({ s with hPtrIn := false, hPtrOut := false }, n)
  | Staging.IN =>
      let hIn := guardedAlloc s.hBufferIn n
      let n := guardedBump s.hBufferIn n
      ({ s with hBufferIn := hIn, hPtrIn := true, hPtrOut := false }, n)
  | Staging.OUT =>
      let hOut := guardedAlloc s.hBufferOut n
      let n := guardedBump s.hBufferOut n
      ({ s with hBufferOut := hOut, hPtrOut := true, hPtrIn := false }, n)
  | Staging.INOUT =>
      let hIn := guardedAlloc s.hBufferIn n
      let n := guardedBump s.hBufferIn n
      let hOut := guardedAlloc s.hBufferOut n
      let n := guardedBump s.hBufferOut n
      ({ s with hBufferIn := hIn, hBufferOut := hOut, hPtrIn := true, hPtrOut := true }, n)

/-- Setup part of `BoxFilterSAT::init` (lines 2975-3063): staging buffers,
`sat.init (width, height, scaling, NONE)`, creation of the output buffer
when not already backed, and the five kernel arguments: the SAT output,
the own output, a 16x16 float scratch, the radius, and `1 / scaling`. -/
def bfsatInit (w h : Nat) (radius : Int) (scaling : Rat) (stg : Staging)
    (s : BFSATSt) (n : Nat) : BFSATSt × Nat :=
  let s := { s with width := w, height := h, radius := radius,
                    scaling := scaling, staging := stg }
  let r := bfsatStagingSetup stg s n
  let s := r.1
  let n := r.2
  let rs := satInit w h scaling Staging.NONE s.sat n
  let s := { s with sat := rs.1 }
  let n := rs.2
  let dOut := guardedAlloc s.dBufferOut n
  let n := guardedBump s.dBufferOut n
  let s := { s with dBufferOut := dOut }
  let k := setArg (setArg (setArg (setArg (setArg s.kernel
    0 (.buf (satGet s.sat SATMemory.D_OUT))) 1 (.buf dOut))
    2 (.localMem (16 * 16 * 4))) 3 (.int radius)) 4 (.float (1 / scaling))
  ({ s with kernel := k }, n)

/-- `BoxFilterSAT::run` (lines 3129-3133): `sat.run (events)` followed by
the `boxFilterSAT_Tr` kernel with a null wait-list and the out-event; the
whole chain sits in order on the stage's single queue. -/
def bfsatRun (s : BFSATSt) (events : List Nat) (event : Option Nat) : List Op :=
  satRun s.sat events none ++ [⟨KName.boxFilterSATTr, s.queue, [], event⟩]

/-- `BoxFilterSAT::setRadius` (lines 3148-3152). -/
def bfsatSetRadius (v : Int) (s : BFSATSt) : BFSATSt :=
  { s with radius := v, kernel := setArg s.kernel 3 (.int v) }

/-- `BoxFilterSAT::setScaling` (lines 3166-3171): patches the row-scan
pre-scale inside `sat` and its own descaling argument 4. -/
def bfsatSetScaling (v : Rat) (s : BFSATSt) : BFSATSt :=
  { s with scaling := v, sat := satSetScaling v s.sat,
           kernel := setArg s.kernel 4 (.float (1 / v)) }

/-- State of a direct (non-SAT) `BoxFilter` stage (lines 3177-3435). -/
structure BoxFilterSt where
  hBufferIn : Option Nat := none
  hBufferOut : Option Nat := none
  dBufferIn : Option Nat := none
  dBufferOut : Option Nat := none
  hPtrIn : Bool := false
  hPtrOut : Bool := false
  kernel : KernelArgs := KernelArgs.empty
  width : Nat := 0
  height : Nat := 0
  radius : Int := 0
  staging : Staging := Staging.NONE
  queue : Nat := 0

/-- The try block of `BoxFilter::init` (lines 3268-3291); the work-group
tile is fixed at `lXdim = lYdim = 16` (algorithms.hpp lines 1367-1368). -/
def boxFilterInitCheck (width height : Nat) : Except String Unit :=
  if width = 0 ∨ height = 0 then
    Except.error "The image cannot have zeroed dimensions"
  else if height % 16 ≠ 0 then
    Except.error "The image width has to be a multiple of 16"
  else if width % 16 ≠ 0 then
    Except.error "The image height has to be a multiple of 16"
  else
    Except.ok ()

/-- Staging-buffer creation of `BoxFilter::init` (lines 3297-3335). -/
def boxFilterStagingSetup (stg : Staging) (s : BoxFilterSt) (n : Nat) :
    BoxFilterSt × Nat :=
  match stg with
  | Staging.NONE => ({ s with hPtrIn := false, hPtrOut := false }, n)
  | Staging.IN =>
      let hIn := guardedAlloc s.hBufferIn n
      let n := guardedBump s.hBufferIn n
      ({ s with hBufferIn := hIn, hPtrIn := true, hPtrOut := false }, n)
  | Staging.OUT =>
      let hOut := guardedAlloc s.hBufferOut n
      let n := guardedBump s.hBufferOut n
      ({ s with hBufferOut := hOut, hPtrOut := true, hPtrIn := false }, n)
  | Staging.INOUT =>
      let hIn := guardedAlloc s.hBufferIn n
      let n := guardedBump s.hBufferIn n
      let hOut := guardedAlloc s.hBufferOut n
      let n := guardedBump s.hBufferOut n
      ({ s with hBufferIn := hIn, hBufferOut := hOut, hPtrIn := true, hPtrOut := true }, n)

/-- Setup part of `BoxFilter::init` (lines 3262-3348): staging buffers,
unbacked device buffers, and the four kernel arguments, where argument 2
is a local scratch of `(16 + 2 radius) * (16 + 2 radius)` floats (4 bytes
each) and argument 3 is the radius. -/
def boxFilterInit (w h : Nat) (radius : Int) (stg : Staging) (s : BoxFilterSt)
    (n : Nat) : BoxFilterSt × Nat :=
  let s := { s with width := w, height := h, radius := radius, staging := stg }
  let r := boxFilterStagingSetup stg s n
  let s := r.1
  let n := r.2
  let dIn := guardedAlloc s.dBufferIn n
  let n := guardedBump s.dBufferIn n
  let dOut := guardedAlloc s.dBufferOut n
  let n := guardedBump s.dBufferOut n
  let s := { s with dBufferIn := dIn, dBufferOut := dOut }
  let k := setArg (setArg (setArg (setArg s.kernel
    0 (.buf dIn)) 1 (.buf dOut))
    2 (.localMem ((16 + 2 * radius) * (16 + 2 * radius) * 4))) 3 (.int radius)
  ({ s with kernel := k }, n)

/-- `BoxFilter::run` (lines 3413-3416). -/
def boxFilterRun (s : BoxFilterSt) (events : List Nat) (event : Option Nat) :
    List Op :=
  [⟨KName.boxFilterK, s.queue, events, event⟩]

/-- `BoxFilter::setRadius` (lines 3431-3435): stores the new radius and
patches kernel argument 3 only. -/
def boxFilterSetRadius (v : Int) (s : BoxFilterSt) : BoxFilterSt :=
  { s with radius := v, kernel := setArg s.kernel 3 (.int v) }

/-! ## GuidedFilter<I_EQ_P>, algorithms.cpp lines 3442-3792 -/

/-- State of a `GuidedFilter<GuidedFilterConfig::I_EQ_P>` stage: four
`BoxFilterSAT` children, a `Math::Pown` child (`squared`), the `gf_ab` and
`gf_q` kernels, and the named memory objects of its `Memory` enumeration
(`H_IN, H_OUT, D_IN, D_OUT, D_A, D_B`). -/
structure GFSt where
  hBufferIn : Option Nat := none
  hBufferOut : Option Nat := none
  dBufferIn : Option Nat := none
  dBufferOut : Option Nat := none
  dBufferOutA : Option Nat := none
  dBufferOutB : Option Nat := none
  hPtrIn : Bool := false
  hPtrOut : Bool := false
  mean_p : BFSATSt := {}
  mean_p2 : BFSATSt := {}
  mean_a : BFSATSt := {}
  mean_b : BFSATSt := {}
  squared : PownSt := {}
  ab : KernelArgs := KernelArgs.empty
  q : KernelArgs := KernelArgs.empty
  width : Nat := 0
  height : Nat := 0
  radius : Int := 0
  eps : Rat := 0
  zero_out : Int := 0
  boxScaling : Rat := 0
  outputScaling : Rat := 0
  staging : Staging := Staging.NONE

/-- The `GuidedFilter::Memory` enumeration of the `I_EQ_P` specialization. -/
inductive GFMemory
  | H_IN | H_OUT | D_IN | D_OUT | D_A | D_B
deriving DecidableEq, Repr

/-- The `GuidedFilter<I_EQ_P>` constructor (lines 3442-3453): the class
takes two command queues; `mean_p` and `mean_a` are built on queue 0,
`mean_p2`, `mean_b` and `squared` on queue 1, and the stage's own `ab` and
`q` kernels are enqueued on queue 0. -/
def GFSt.construct (wgMultiple : Nat) : GFSt :=
  { mean_p := BFSATSt.construct wgMultiple 0,
    mean_p2 := BFSATSt.construct wgMultiple 1,
    mean_a := BFSATSt.construct wgMultiple 0,
    mean_b := BFSATSt.construct wgMultiple 1,
    squared := { queue := 1 } }

/-- `GuidedFilter<I_EQ_P>::get` (lines 3461-3478). -/
def gfGet (s : GFSt) (mem : GFMemory) : Option Nat :=
  match mem with
  | GFMemory.H_IN => s.hBufferIn
  | GFMemory.H_OUT => s.hBufferOut
  | GFMemory.D_IN => s.dBufferIn
  | GFMemory.D_OUT => s.dBufferOut
  | GFMemory.D_A => s.dBufferOutA
  | GFMemory.D_B => s.dBufferOutB

/-- The try block of `GuidedFilter<I_EQ_P>::init` (lines 3513-3525). -/
def gfInitCheck (width height : Nat) : Except String Unit :=
  if width = 0 ∨ height = 0 then
    Except.error "The image cannot have zeroed dimensions"
  else if (width * height) % 4 ≠ 0 then
    Except.error "The number of elements in the array has to be a multiple of 4"
  else
    Except.ok ()

/-- Staging-buffer creation of `GuidedFilter<I_EQ_P>::init` (lines
3527-3565), on the first command queue. -/
def gfStagingSetup (stg : Staging) (s : GFSt) (n : Nat) : GFSt × Nat :=
  match stg with
  | Staging.NONE => ({ s with hPtrIn := false, hPtrOut := false }, n)
  | Staging.IN =>
      let hIn := guardedAlloc s.hBufferIn n
      let n := guardedBump s.hBufferIn n
      ({ s with hBufferIn := hIn, hPtrIn := true, hPtrOut := false }, n)
  | Staging.OUT =>
      let hOut := guardedAlloc s.hBufferOut n
      let n := guardedBump s.hBufferOut n
      ({ s with hBufferOut := hOut, hPtrOut := true, hPtrIn := false }, n)
  | Staging.INOUT =>
      let hIn := guardedAlloc s.hBufferIn n
      let n := guardedBump s.hBufferIn n
      let hOut := guardedAlloc s.hBufferOut n
      let n := guardedBump s.hBufferOut n
      ({ s with hBufferIn := hIn, hBufferOut := hOut, hPtrIn := true, hPtrOut := true }, n)

/-- Setup part of `GuidedFilter<I_EQ_P>::init` (lines 3502-3610): staging
buffers; `D_IN`/`D_OUT` created only when not already backed; each child
wired by handle assignment before its own `init` (inputs to `D_IN`,
`squared`'s output into `mean_p2`, the `a`/`b` buffers into
`mean_a`/`mean_b`) with a freshly created output buffer per child;
`dBufferOutA`/`dBufferOutB` created unconditionally (lines 3585-3586);
and the `gf_ab` and `gf_q` argument bindings, with `eps` in `ab` slot 4,
`zero_out` in `q` slot 4 and `outputScaling` in `q` slot 5. -/
def gfInit (w h : Nat) (radius : Int) (eps : Rat) (zero_out : Int)
    (boxScaling outputScaling : Rat) (stg : Staging) (s : GFSt) (n : Nat) :
    GFSt × Nat :=
  let s0 : GFSt := { s with width := w, height := h, radius := radius, eps := eps,
                            zero_out := zero_out, boxScaling := boxScaling,
                            outputScaling := outputScaling, staging := stg }
  let r0 : GFSt × Nat := gfStagingSetup stg s0 n
  let s1 : GFSt := r0.1
  let dIn : Option Nat := guardedAlloc s1.dBufferIn r0.2
  let n1 : Nat := guardedBump s1.dBufferIn r0.2
  let dOut : Option Nat := guardedAlloc s1.dBufferOut n1
  let n2 : Nat := guardedBump s1.dBufferOut n1
  let s2 : GFSt := { s1 with dBufferIn := dIn, dBufferOut := dOut }
  let rp : BFSATSt × Nat := bfsatInit w h radius boxScaling Staging.NONE
    { bfsatSetInput dIn s2.mean_p with dBufferOut := some n2 } (n2 + 1)
  let s3 : GFSt := { s2 with mean_p := rp.1 }
  let rs : PownSt × Nat := pownInit w h 2 Staging.NONE
    { s3.squared with dBufferIn := dIn, dBufferOut := some rp.2 } (rp.2 + 1)
  let s4 : GFSt := { s3 with squared := rs.1 }
  let rp2 : BFSATSt × Nat := bfsatInit w h radius boxScaling Staging.NONE
    { bfsatSetInput s4.squared.dBufferOut s4.mean_p2 with dBufferOut := some rs.2 }
    (rs.2 + 1)
  let s5 : GFSt := { s4 with mean_p2 := rp2.1 }
  let dA : Option Nat := some rp2.2
  let dB : Option Nat := some (rp2.2 + 1)
  let abK : KernelArgs := setArg (setArg (setArg (setArg (setArg s5.ab
    0 (.buf s5.mean_p.dBufferOut)) 1 (.buf s5.mean_p2.dBufferOut))
    2 (.buf dA)) 3 (.buf dB)) 4 (.float eps)
  let s6 : GFSt := { s5 with dBufferOutA := dA, dBufferOutB := dB, ab := abK }
  let ra : BFSATSt × Nat := bfsatInit w h radius boxScaling Staging.NONE
    { bfsatSetInput dA s6.mean_a with dBufferOut := some (rp2.2 + 2) } (rp2.2 + 3)
  let s7 : GFSt := { s6 with mean_a := ra.1 }
  let rb : BFSATSt × Nat := bfsatInit w h radius boxScaling Staging.NONE
    { bfsatSetInput dB s7.mean_b with dBufferOut := some ra.2 } (ra.2 + 1)
  let s8 : GFSt := { s7 with mean_b := rb.1 }
  let qK : KernelArgs := setArg (setArg (setArg (setArg (setArg (setArg s8.q
    0 (.buf dIn)) 1 (.buf s8.mean_a.dBufferOut)) 2 (.buf s8.mean_b.dBufferOut))
    3 (.buf dOut)) 4 (.int zero_out)) 5 (.float outputScaling)
  ({ s8 with q := qK }, rb.2)

/-- The member events of `GuidedFilter<I_EQ_P>` used inside `run`:
`p2Event`, `abEvent`, `mbEvent`, modelled as fixed event ids. -/
def p2Ev : Nat := 0

/-- Event signalled by the `gf_ab` kernel inside `GuidedFilter::run`. -/
def abEv : Nat := 1

/-- Event signalled by `mean_b`'s last kernel inside `GuidedFilter::run`. -/
def mbEv : Nat := 2

/-- The seven operations of one `GuidedFilter<I_EQ_P>::run` invocation,
one per source line (3679-3686). -/
inductive GFNode
  | mean_p | squared | mean_p2 | ab | mean_a | mean_b | q
deriving DecidableEq, Repr

/-- One of the seven operations `GuidedFilter<I_EQ_P>::run` enqueues: a
child stage's `run` or one of the own kernels. A child's internal kernels
sit in order on the child's single in-order queue, with the wait-list
bound to the child's first kernel and the completion event to its last
(`scanRun`/`satRun`/`bfsatRun` above), so each child is one node here.
`reads`/`writes` record the device buffers the operation consumes and
produces. -/
structure GFOp where
  node : GFNode
  queue : Nat
  waits : List Nat
  signal : Option Nat
  reads : List (Option Nat)
  writes : List (Option Nat)

/-- `GuidedFilter<I_EQ_P>::run` (lines 3677-3687): `mean_p.run (events)`;
`squared.run (events)`; `mean_p2.run (nullptr, &p2Event)`; the `gf_ab`
kernel on queue 0 waiting on `p2Event` and signalling `abEvent`;
`mean_a.run ()`; `mean_b.run (&waitListMB, &mbEvent)` with
`waitListMB[0] = abEvent`; the `gf_q` kernel on queue 0 waiting on
`mbEvent` and signalling the caller's out-event. -/
def gfRunOps (s : GFSt) (events : List Nat) (event : Option Nat) : List GFOp :=
  [⟨GFNode.mean_p, s.mean_p.queue, events, none,
      [s.mean_p.sat.scanRows.dBufferIn], [s.mean_p.dBufferOut]⟩,
   ⟨GFNode.squared, s.squared.queue, events, none,
      [s.squared.dBufferIn], [s.squared.dBufferOut]⟩,
   ⟨GFNode.mean_p2, s.mean_p2.queue, [], some p2Ev,
      [s.mean_p2.sat.scanRows.dBufferIn], [s.mean_p2.dBufferOut]⟩,
   ⟨GFNode.ab, 0, [p2Ev], some abEv,
      [getBufArg s.ab 0, getBufArg s.ab 1], [getBufArg s.ab 2, getBufArg s.ab 3]⟩,
   ⟨GFNode.mean_a, s.mean_a.queue, [], none,
      [s.mean_a.sat.scanRows.dBufferIn], [s.mean_a.dBufferOut]⟩,
   ⟨GFNode.mean_b, s.mean_b.queue, [abEv], some mbEv,
      [s.mean_b.sat.scanRows.dBufferIn], [s.mean_b.dBufferOut]⟩,
   ⟨GFNode.q, 0, [mbEv], event,
      [getBufArg s.q 0, getBufArg s.q 1, getBufArg s.q 2], [getBufArg s.q 3]⟩]

/-- `GuidedFilter<I_EQ_P>::setEps` (lines 3724-3728). -/
def gfSetEps (v : Rat) (s : GFSt) : GFSt :=
  { s with eps := v, ab := setArg s.ab 4 (.float v) }

/-- `GuidedFilter<I_EQ_P>::setBoxScaling` (lines 3744-3751): patches the
scaling of the four `BoxFilterSAT` children. -/
def gfSetBoxScaling (v : Rat) (s : GFSt) : GFSt :=
  { s with boxScaling := v,
           mean_p := bfsatSetScaling v s.mean_p,
           mean_p2 := bfsatSetScaling v s.mean_p2,
           mean_a := bfsatSetScaling v s.mean_a,
           mean_b := bfsatSetScaling v s.mean_b }

/-- `GuidedFilter<I_EQ_P>::setOutputScaling` (lines 3766-3773): the source
stores the new value and then calls `setScaling (outputScaling)` on the
four `BoxFilterSAT` children; it never touches `q`'s argument 5, the slot
`init` bound `outputScaling` to. -/
def gfSetOutputScaling (v : Rat) (s : GFSt) : GFSt :=
  { s with outputScaling := v,
           mean_p := bfsatSetScaling v s.mean_p,
           mean_p2 := bfsatSetScaling v s.mean_p2,
           mean_a := bfsatSetScaling v s.mean_a,
           mean_b := bfsatSetScaling v s.mean_b }

/-- `GuidedFilter<I_EQ_P>::setZeroing` (lines 3788-3792). -/
def gfSetZeroing (v : Int) (s : GFSt) : GFSt :=
  { s with zero_out := v, q := setArg s.q 4 (.int v) }

/-- One scheduling edge between two of the operations of a `run`
invocation: `j` comes after `i` in enqueue order and either both sit on
the same in-order queue or `i`'s completion event is in `j`'s wait-list. -/
def hbStep (ops : List GFOp) (i j : Nat) : Prop :=
  ∃ a b, ops[i]? = some a ∧ ops[j]? = some b ∧ i < j ∧
    (a.queue = b.queue ∨ ∃ e, a.signal = some e ∧ e ∈ b.waits)

/-- Operation `i` is guaranteed to complete before operation `j` starts:
the transitive closure of the scheduling edges. -/
def hb (ops : List GFOp) : Nat → Nat → Prop :=
  Relation.TransGen (hbStep ops)

/-! ## Theorems about the validation performed in `init` -/

/-- Whether an `Except`-modelled validation reports a fatal error (the
source logs the message and terminates the process). -/
def isErr {α : Type} (e : Except String α) : Bool :=
  match e with
  | Except.error _ => true
  | Except.ok _ => false

/-- The group count computed by `Scan::init` is zero exactly when the
width is zero. -/
theorem scanWgXdim_eq_zero (wgMultiple width : Nat) (h : 0 < wgMultiple) :
    scanWgXdim wgMultiple width = 0 ↔ width = 0 := by
  have hm : 0 < 8 * wgMultiple := by omega
  have hdiv : (width + 8 * wgMultiple - 1) / (8 * wgMultiple) = 0 ↔
      width + 8 * wgMultiple - 1 < 8 * wgMultiple := Nat.div_eq_zero_iff hm
  simp only [scanWgXdim]
  generalize hq : (width + 8 * wgMultiple - 1) / (8 * wgMultiple) = q
  rw [hq] at hdiv
  by_cases hcond : q ≠ 1 ∧ q % 4 ≠ 0
  · rw [if_pos hcond]
    omega
  · rw [if_neg hcond]
    omega

/-- Claim C8: `Scan::init` reports a fatal configuration error if and only
if the requested width is not a multiple of 4, or exceeds
`(8 * wgMultiple) ^ 2`, or the computed group count is zero; the group
count is zero exactly for a zero width, so every other `(width, height)`
passes validation (the height is never constrained). -/
theorem scan_init_error_iff (wgMultiple width height : Nat) (h : 0 < wgMultiple) :
    (isErr (scanInitCheck wgMultiple width) = true ↔
      (width % 4 ≠ 0 ∨ width > (8 * wgMultiple) ^ 2 ∨
        scanWgXdim wgMultiple width = 0))
    ∧ (scanWgXdim wgMultiple width = 0 ↔ width = 0)
    ∧ (height = height) := by
  refine ⟨?_, scanWgXdim_eq_zero wgMultiple width h, rfl⟩
  unfold scanInitCheck
  split_ifs with h1 h2 h3
  · exact iff_of_true rfl (Or.inr (Or.inr h1))
  · exact iff_of_true rfl (Or.inl h2)
  · exact iff_of_true rfl (Or.inr (Or.inl h3))
  · refine iff_of_false (by simp [isErr]) ?_
    rintro (hA | hB | hC)
    · exact h2 hA
    · exact h3 hB
    · exact h1 hC

/-- Witness for `scan_init_error_iff`: at `wgMultiple = 8`,
`width = 640`, `height = 480` the validation passes (640 is a multiple of
4, at most 4096, and the group count 12 is nonzero). -/
theorem scan_init_error_iff_witness :
    isErr (scanInitCheck 8 640) = false ∧ scanWgXdim 8 640 = 12 := by
  have h := scan_init_error_iff 8 640 480 (by norm_num)
  have h1 : ¬(640 % 4 ≠ 0 ∨ 640 > (8 * 8) ^ 2 ∨ scanWgXdim 8 640 = 0) := by
    decide
  have h2 : ¬(isErr (scanInitCheck 8 640) = true) := fun he => h1 (h.1.1 he)
  exact ⟨by simpa using h2, by decide⟩

/-- The side chosen by `chooseSide` is one of 16, 8, 4, 2, 1, hence a
power of two of at most 16, and divides both of its arguments. -/
theorem chooseSide_divides (xN yN : Nat) :
    (∃ k, chooseSide xN yN = 2 ^ k) ∧ chooseSide xN yN ≤ 16 ∧
      chooseSide xN yN ∣ xN ∧ chooseSide xN yN ∣ yN := by
  unfold chooseSide
  split_ifs with h1 h2 h3 h4 h5
  · exact ⟨⟨4, rfl⟩, by norm_num,
      Nat.dvd_of_mod_eq_zero h1.1, Nat.dvd_of_mod_eq_zero h1.2⟩
  · exact ⟨⟨3, rfl⟩, by norm_num,
      Nat.dvd_of_mod_eq_zero h2.1, Nat.dvd_of_mod_eq_zero h2.2⟩
  · exact ⟨⟨2, rfl⟩, by norm_num,
      Nat.dvd_of_mod_eq_zero h3.1, Nat.dvd_of_mod_eq_zero h3.2⟩
  · exact ⟨⟨1, rfl⟩, by norm_num,
      Nat.dvd_of_mod_eq_zero h4.1, Nat.dvd_of_mod_eq_zero h4.2⟩
  · exact ⟨⟨0, rfl⟩, by norm_num, Nat.one_dvd xN, Nat.one_dvd yN⟩
  · exact absurd ⟨Nat.mod_one xN, Nat.mod_one yN⟩ h5

/-- No power of two that is at most the loop's starting bound 16 and
divides both arguments exceeds the one `chooseSide` picks. -/
theorem chooseSide_greatest (xN yN t k : Nat) (ht : t = 2 ^ k) (h16 : t ≤ 16)
    (hdx : t ∣ xN) (hdy : t ∣ yN) : t ≤ chooseSide xN yN := by
  have hk : k ≤ 4 := by
    by_contra hgt
    have h5 : 5 ≤ k := by omega
    have : 2 ^ 5 ≤ 2 ^ k := Nat.pow_le_pow_right (by norm_num) h5
    omega
  subst ht
  unfold chooseSide
  split_ifs with h1 h2 h3 h4 h5
  · exact h16
  · interval_cases k <;> simp_all [Nat.dvd_iff_mod_eq_zero]
  · interval_cases k <;> simp_all [Nat.dvd_iff_mod_eq_zero]
  · interval_cases k <;> simp_all [Nat.dvd_iff_mod_eq_zero]
  · interval_cases k <;> simp_all [Nat.dvd_iff_mod_eq_zero]
  · exact absurd ⟨Nat.mod_one xN, Nat.mod_one yN⟩ h5

/-- Claim C9: `Transpose::init` rejects as fatal any dimensions where
width or height is zero or not a multiple of 4; otherwise it chooses the
square tile side as the largest power of two that is at most the fixed
bound 16 (the loop start, giving the preferred 16 x 16 = 256 work-item
geometry) and evenly divides both `width / 4` and `height / 4`, falling
back toward 1 when no larger power of two divides both. -/
theorem transpose_init_validation_and_tile_side (w h : Nat) :
    (isErr (transposeInitCheck w h) = true ↔
      (w = 0 ∨ h = 0 ∨ w % 4 ≠ 0 ∨ h % 4 ≠ 0))
    ∧ (∀ lSide, transposeInitCheck w h = Except.ok lSide →
        (∃ k, lSide = 2 ^ k) ∧ lSide ≤ 16 ∧
        lSide ∣ (w / 4) ∧ lSide ∣ (h / 4) ∧
        (∀ t k, t = 2 ^ k → t ≤ 16 → t ∣ (w / 4) → t ∣ (h / 4) → t ≤ lSide)) := by
  constructor
  · simp only [transposeInitCheck]
    split_ifs with hc
    · exact iff_of_true rfl (by omega)
    · refine iff_of_false (by simp [isErr]) ?_
      push_neg at hc
      omega
  · intro lSide hres
    simp only [transposeInitCheck] at hres
    by_cases hc : (w % 4 ≠ 0 ∨ h % 4 ≠ 0 ∨ w / 4 = 0 ∨ h / 4 = 0)
    · rw [if_pos hc] at hres
      simp at hres
    · rw [if_neg hc] at hres
      have hl : chooseSide (w / 4) (h / 4) = lSide := Except.ok.inj hres
      subst hl
      obtain ⟨hp, h16, hx, hy⟩ := chooseSide_divides (w / 4) (h / 4)
      exact ⟨hp, h16, hx, hy,
        fun t k ht h16' hdx hdy => chooseSide_greatest _ _ t k ht h16' hdx hdy⟩

/-- Witness for `transpose_init_validation_and_tile_side` at a 16 x 32
image: validation passes and the chosen tile side is 4, the largest power
of two dividing both 16 / 4 = 4 and 32 / 4 = 8. -/
theorem transpose_init_validation_and_tile_side_witness :
    (∃ k, (4 : Nat) = 2 ^ k) ∧ (4 : Nat) ≤ 16 ∧ (4 : Nat) ∣ (16 / 4) ∧
      (4 : Nat) ∣ (32 / 4) ∧ transposeInitCheck 16 32 = Except.ok 4 := by
  have hres : transposeInitCheck 16 32 = Except.ok 4 := rfl
  obtain ⟨hp, h16, hx, hy, _⟩ :=
    (transpose_init_validation_and_tile_side 16 32).2 4 hres
  exact ⟨hp, h16, hx, hy, hres⟩

/-! ## Theorems about the direct BoxFilter setters -/

/-- The staging-buffer creation of `BoxFilter::init` touches no kernel
argument, no device buffer and not the radius. -/
theorem boxFilterStagingSetup_frame (stg : Staging) (s : BoxFilterSt) (n : Nat) :
    (boxFilterStagingSetup stg s n).1.kernel = s.kernel ∧
    (boxFilterStagingSetup stg s n).1.dBufferIn = s.dBufferIn ∧
    (boxFilterStagingSetup stg s n).1.dBufferOut = s.dBufferOut ∧
    (boxFilterStagingSetup stg s n).1.radius = s.radius := by
  cases stg <;> exact ⟨rfl, rfl, rfl, rfl⟩

/-- Claim C10: after `BoxFilter::init` with radius `r0` followed by
`setRadius r1`, the radius argument (slot 3) holds `r1` while the
local-memory scratch argument (slot 2) keeps the size
`(16 + 2 r0) * (16 + 2 r0)` floats (4 bytes each) computed from `r0`;
every other kernel argument and every buffer handle is unchanged by
`setRadius`, so for nonnegative radii the scratch matches the active
radius exactly when `r1 = r0`. -/
theorem boxfilter_setradius_updates_only_radius_slot
    (w h : Nat) (r0 r1 : Int) (stg : Staging) (s : BoxFilterSt) (n : Nat)
    (s1 : BoxFilterSt) (hs1 : s1 = (boxFilterInit w h r0 stg s n).1)
    (hr0 : 0 ≤ r0) (hr1 : 0 ≤ r1) :
    getArg (boxFilterSetRadius r1 s1).kernel 3 = some (KArg.int r1) ∧
    getArg (boxFilterSetRadius r1 s1).kernel 2 =
      some (KArg.localMem ((16 + 2 * r0) * (16 + 2 * r0) * 4)) ∧
    (∀ i, i ≠ 3 → getArg (boxFilterSetRadius r1 s1).kernel i = getArg s1.kernel i) ∧
    (boxFilterSetRadius r1 s1).dBufferIn = s1.dBufferIn ∧
    (boxFilterSetRadius r1 s1).dBufferOut = s1.dBufferOut ∧
    (boxFilterSetRadius r1 s1).hBufferIn = s1.hBufferIn ∧
    (boxFilterSetRadius r1 s1).hBufferOut = s1.hBufferOut ∧
    (getArg (boxFilterSetRadius r1 s1).kernel 2 =
        some (KArg.localMem ((16 + 2 * r1) * (16 + 2 * r1) * 4)) ↔ r1 = r0) := by
  have hk2 : getArg s1.kernel 2 =
      some (KArg.localMem ((16 + 2 * r0) * (16 + 2 * r0) * 4)) := by
    subst hs1
    simp only [boxFilterInit]
    rw [setArg_getArg_ne _ 3 2 _ (by norm_num)]
    exact setArg_getArg _ 2 _
  have harg3 : getArg (boxFilterSetRadius r1 s1).kernel 3 = some (KArg.int r1) :=
    setArg_getArg _ 3 _
  have hother : ∀ i, i ≠ 3 →
      getArg (boxFilterSetRadius r1 s1).kernel i = getArg s1.kernel i :=
    fun i hi => setArg_getArg_ne _ 3 i _ hi
  have harg2 : getArg (boxFilterSetRadius r1 s1).kernel 2 =
      some (KArg.localMem ((16 + 2 * r0) * (16 + 2 * r0) * 4)) := by
    rw [hother 2 (by norm_num)]
    exact hk2
  refine ⟨harg3, harg2, hother, rfl, rfl, rfl, rfl, ?_⟩
  rw [harg2]
  constructor
  · intro heq
    have hpay : (16 + 2 * r0) * (16 + 2 * r0) * 4 =
        (16 + 2 * r1) * (16 + 2 * r1) * 4 :=
      KArg.localMem.inj (Option.some.inj heq)
    have hsq : (16 + 2 * r0) * (16 + 2 * r0) = (16 + 2 * r1) * (16 + 2 * r1) :=
      mul_right_cancel₀ (by norm_num) hpay
    rcases mul_self_eq_mul_self_iff.1 hsq with hab | hab
    · omega
    · omega
  · intro heq
    rw [heq]

/-- Witness for `boxfilter_setradius_updates_only_radius_slot` at a 16x16
image, `r0 = 2`, `r1 = 5`: slot 3 now holds 5, but slot 2 keeps the
20 * 20 * 4 = 1600-byte scratch derived from radius 2. -/
theorem boxfilter_setradius_updates_only_radius_slot_witness :
    getArg (boxFilterSetRadius 5 (boxFilterInit 16 16 2 Staging.NONE {} 0).1).kernel 3
      = some (KArg.int 5) ∧
    getArg (boxFilterSetRadius 5 (boxFilterInit 16 16 2 Staging.NONE {} 0).1).kernel 2
      = some (KArg.localMem 1600) := by
  have hth := boxfilter_setradius_updates_only_radius_slot 16 16 2 5 Staging.NONE
    {} 0 ((boxFilterInit 16 16 2 Staging.NONE {} 0).1) rfl (by norm_num) (by norm_num)
  refine ⟨hth.1, ?_⟩
  rw [hth.2.1]
  norm_num

/-! ## Theorems about the staging policy gating of write/read -/

/-- Counterexample to claim C2: a `Math::Mult` stage initialized with
`Staging::I` allocates and maps its input staging buffers, yet `write` on
`D_IN_A` enqueues nothing (and symmetrically `read` under `Staging::O`
returns null), because `Mult::write`/`Mult::read` test
`staging == Staging::IO` instead of including the single directions. -/
theorem mult_write_under_input_staging_is_noop :
    (multInit 4 4 Staging.IN {} 0).1.staging = Staging.IN ∧
    (multInit 4 4 Staging.IN {} 0).1.hPtrInA = true ∧
    multWrite (multInit 4 4 Staging.IN {} 0).1 MultMemory.D_IN_A [] none = none ∧
    (multInit 4 4 Staging.OUT {} 0).1.hPtrOut = true ∧
    multRead (multInit 4 4 Staging.OUT {} 0).1 MultMemory.H_OUT [] none = none := by
  decide

/-- Claim C2 as amended: for the stages of algorithms.cpp (here `Scan`,
representative of all of them), `write` enqueues the host-to-device
transfer exactly when the staging policy includes the input direction and
`read` enqueues the device-to-host transfer and returns the staging
pointer exactly when it includes the output direction, both no-ops (not
errors) otherwise; for `Math::Mult` and `Math::Pown` however, the
transfers happen only under `Staging::IO` — under `Staging::I` or
`Staging::O` alone their `write`/`read` are no-ops returning null. -/
theorem staging_policy_gates_transfers (sc : ScanSt) (m : MultSt) (p : PownSt)
    (waits : List Nat) (ev : Option Nat) :
    ((scanWrite sc ScanMemory.D_IN waits ev).isSome ↔
      (sc.staging = Staging.IN ∨ sc.staging = Staging.INOUT)) ∧
    ((scanRead sc ScanMemory.H_OUT waits ev).isSome ↔
      (sc.staging = Staging.OUT ∨ sc.staging = Staging.INOUT)) ∧
    ((multWrite m MultMemory.D_IN_A waits ev).isSome ↔ m.staging = Staging.INOUT) ∧
    ((multWrite m MultMemory.D_IN_B waits ev).isSome ↔ m.staging = Staging.INOUT) ∧
    ((multRead m MultMemory.H_OUT waits ev).isSome ↔ m.staging = Staging.INOUT) ∧
    ((pownWrite p PownMemory.D_IN waits ev).isSome ↔ p.staging = Staging.INOUT) ∧
    ((pownRead p PownMemory.H_OUT waits ev).isSome ↔ p.staging = Staging.INOUT) := by
  refine ⟨?_, ?_, ?_, ?_, ?_, ?_, ?_⟩ <;>
    first
    | (cases h : sc.staging <;> simp [scanWrite, scanRead, h])
    | (cases h : m.staging <;> simp [multWrite, multRead, h])
    | (cases h : p.staging <;> simp [pownWrite, pownRead, h])

/-! ## Theorems about the parameter setters that miss their slot -/

/-- State of a `GuidedFilter<I_EQ_P>` stage right after an `init` that
bound `outputScaling = 5` to `gf_q` argument slot 5. -/
def gfC1before : GFSt :=
  (gfInit 16 16 1 2 0 1 5 Staging.NONE (GFSt.construct 8) 0).1

/-- The same stage after `setOutputScaling 3`. -/
def gfC1after : GFSt := gfSetOutputScaling 3 gfC1before

/-- Claim C1 at its failing inputs: `Depth::setScaling` and
`Pown::setPower` write kernel slot 3 although `init` bound the parameter
to slot 2 (slot 3 does not exist on those kernels and the bound slot keeps
its stale value), and `GuidedFilter<I_EQ_P>::setOutputScaling` leaves the
`gf_q` kernel untouched — slot 5 keeps the old output scaling — while
clobbering the four `BoxFilterSAT` children's box scaling instead. -/
theorem setters_patch_wrong_slots :
    (getArg (depthSetScaling 2 (depthInit 4 4 1 Staging.NONE {} 0).1).kernel 2
        = some (KArg.float 1) ∧
      getArg (depthSetScaling 2 (depthInit 4 4 1 Staging.NONE {} 0).1).kernel 3
        = some (KArg.float 2) ∧
      getArg (depthInit 4 4 1 Staging.NONE {} 0).1.kernel 3 = none) ∧
    (getArg (pownSetPower 7 (pownInit 4 4 2 Staging.NONE {} 0).1).kernel 2
        = some (KArg.int 2) ∧
      getArg (pownSetPower 7 (pownInit 4 4 2 Staging.NONE {} 0).1).kernel 3
        = some (KArg.int 7) ∧
      getArg (pownInit 4 4 2 Staging.NONE {} 0).1.kernel 3 = none) ∧
    (gfC1after.q = gfC1before.q ∧
      getArg gfC1after.q 5 = some (KArg.float 5) ∧
      gfC1after.outputScaling = 3 ∧
      gfC1after.mean_p.scaling = 3 ∧
      gfC1before.mean_p.scaling = 1 ∧
      getArg gfC1after.mean_p.sat.scanRows.kernelScan 5 = some (KArg.float 3)) := by
  refine ⟨⟨?_, ?_, ?_⟩, ⟨?_, ?_, ?_⟩, rfl, ?_, rfl, ?_, ?_, ?_⟩ <;> decide

/-! ## Theorems about buffer maintenance across init -/

/-- State of a `GuidedFilter<I_EQ_P>` stage whose `D_IN`, `D_A` and `D_B`
memory objects were backed through `get` before `init`, after that
`init`. -/
def gfC3init : GFSt :=
  (gfInit 16 16 1 1 0 1 1 Staging.NONE
    { GFSt.construct 8 with dBufferIn := some 77,
                            dBufferOutA := some 98,
                            dBufferOutB := some 99 } 100).1

/-- Claim C3 at its failing input: `GuidedFilter<I_EQ_P>::init` keeps a
pre-backed `D_IN` (as the guarded creations of `Scan::init` do for a
pre-backed scan input), but it unconditionally re-creates `D_A` and `D_B`
(algorithms.cpp lines 3585-3586), discarding memory objects assigned to
them before `init`. -/
theorem gf_init_replaces_backed_ab_buffers :
    gfGet gfC3init GFMemory.D_IN = some 77 ∧
    gfGet gfC3init GFMemory.D_A ≠ some 98 ∧
    gfGet gfC3init GFMemory.D_B ≠ some 99 ∧
    (scanInit 16 16 1 Staging.NONE { dBufferIn := some 55 } 0).1.dBufferIn
      = some 55 := by
  decide

/-! ## Theorems about run completion tokens -/

/-- Operations enqueued by `SAT::run` on a transposed `SAT` (the
constructor default) when the caller asks for completion token 5. -/
def satC7runT : List Op :=
  satRun (satInit 16 16 1 Staging.NONE (SATSt.construct true 8 0) 0).1 [] (some 5)

/-- Operations enqueued by `SAT::run` on a non-transposed `SAT` with the
same request. -/
def satC7runF : List Op :=
  satRun (satInit 16 16 1 Staging.NONE (SATSt.construct false 8 0) 0).1 [] (some 5)

/-- Claim C7 at its failing input: in the transposed configuration
`SAT::run` enqueues its kernels but never associates the caller's
completion token with any of them (the `event` argument is dropped),
whereas in the non-transposed configuration the token is bound to the
last enqueued operation, the second transpose. -/
theorem sat_run_transposed_drops_completion_event :
    (SATSt.construct true 8 0).transposed = true ∧
    satC7runT ≠ [] ∧
    (∀ op ∈ satC7runT, op.signal ≠ some 5) ∧
    satC7runF.getLast?.map Op.signal = some (some 5) := by
  decide

/-! ## Frame lemmas: staging-buffer creation never touches device buffers -/

/-- `Scan::init`'s staging-buffer creation leaves the input device buffer
alone. -/
theorem scanStaging_dIn (stg : Staging) (s : ScanSt) (n : Nat) :
    (scanStagingSetup stg s n).1.dBufferIn = s.dBufferIn := by
  cases stg <;> rfl

/-- `Scan::init`'s staging-buffer creation leaves the output device buffer
alone. -/
theorem scanStaging_dOut (stg : Staging) (s : ScanSt) (n : Nat) :
    (scanStagingSetup stg s n).1.dBufferOut = s.dBufferOut := by
  cases stg <;> rfl

/-- `Transpose::init`'s staging-buffer creation leaves the input device
buffer alone. -/
theorem transposeStaging_dIn (stg : Staging) (s : TransposeSt) (n : Nat) :
    (transposeStagingSetup stg s n).1.dBufferIn = s.dBufferIn := by
  cases stg <;> rfl

/-- `Transpose::init`'s staging-buffer creation leaves the output device
buffer alone. -/
theorem transposeStaging_dOut (stg : Staging) (s : TransposeSt) (n : Nat) :
    (transposeStagingSetup stg s n).1.dBufferOut = s.dBufferOut := by
  cases stg <;> rfl

/-- `SAT::init`'s staging-buffer creation leaves the `transposed` flag
alone. -/
theorem satStaging_transposed (stg : Staging) (s : SATSt) (n : Nat) :
    (satStagingSetup stg s n).1.transposed = s.transposed := by
  cases stg <;> rfl

/-- `SAT::init`'s staging-buffer creation leaves the row-scan child
alone. -/
theorem satStaging_scanRows (stg : Staging) (s : SATSt) (n : Nat) :
    (satStagingSetup stg s n).1.scanRows = s.scanRows := by
  cases stg <;> rfl

/-- `SAT::init`'s staging-buffer creation leaves the column-scan child
alone. -/
theorem satStaging_scanColumns (stg : Staging) (s : SATSt) (n : Nat) :
    (satStagingSetup stg s n).1.scanColumns = s.scanColumns := by
  cases stg <;> rfl

/-- `SAT::init`'s staging-buffer creation leaves the first transpose child
alone. -/
theorem satStaging_transpose1 (stg : Staging) (s : SATSt) (n : Nat) :
    (satStagingSetup stg s n).1.transpose1 = s.transpose1 := by
  cases stg <;> rfl

/-- `SAT::init`'s staging-buffer creation leaves the second transpose
child alone. -/
theorem satStaging_transpose2 (stg : Staging) (s : SATSt) (n : Nat) :
    (satStagingSetup stg s n).1.transpose2 = s.transpose2 := by
  cases stg <;> rfl

/-! ## Guarded buffer creation in the leaf inits -/

/-- `Scan::init` maintains an input device buffer that is already
backed. -/
theorem scanInit_keeps_dIn (w h : Nat) (sc : Rat) (stg : Staging) (s : ScanSt)
    (n : Nat) (hin : s.dBufferIn ≠ none) :
    (scanInit w h sc stg s n).1.dBufferIn = s.dBufferIn := by
  simp only [scanInit]
  split <;> simp [scanStaging_dIn, hin]

/-- `Scan::init` always leaves the output device buffer backed. -/
theorem scanInit_dOut_ne (w h : Nat) (sc : Rat) (stg : Staging) (s : ScanSt)
    (n : Nat) : (scanInit w h sc stg s n).1.dBufferOut ≠ none := by
  simp only [scanInit]
  split <;> (by_cases hX : s.dBufferOut = none <;> simp [scanStaging_dOut, hX])

/-- `Transpose::init` maintains an input device buffer that is already
backed. -/
theorem transposeInit_keeps_dIn (w h : Nat) (stg : Staging) (s : TransposeSt)
    (n : Nat) (hin : s.dBufferIn ≠ none) :
    (transposeInit w h stg s n).1.dBufferIn = s.dBufferIn := by
  simp [transposeInit, transposeStaging_dIn, hin]

/-- `Transpose::init` maintains an output device buffer that is already
backed. -/
theorem transposeInit_keeps_dOut (w h : Nat) (stg : Staging) (s : TransposeSt)
    (n : Nat) (hout : s.dBufferOut ≠ none) :
    (transposeInit w h stg s n).1.dBufferOut = s.dBufferOut := by
  simp [transposeInit, transposeStaging_dOut, hout]

/-! ## Theorems about the SAT composition -/

/-- Claim C6: `SAT::init` composes row-Scan, Transpose, column-Scan, and a
second Transpose exactly when the stage was constructed with
`transposed == false`; each child's input buffer handle equals the
previous child's output buffer handle (handle assignment, no copy);
`get (D_OUT)` returns the column-scan output when transposed and the
second transpose's output otherwise; and `run` enqueues the children in
that order. -/
theorem sat_init_composes_scan_transpose_scan
    (w h : Nat) (sc : Rat) (stg : Staging) (s : SATSt) (n : Nat)
    (evs : List Nat) (ev : Option Nat)
    (r : SATSt) (hr : r = (satInit w h sc stg s n).1) :
    r.transpose1.dBufferIn = r.scanRows.dBufferOut ∧
    r.scanColumns.dBufferIn = r.transpose1.dBufferOut ∧
    r.transposed = s.transposed ∧
    (s.transposed = false → r.transpose2.dBufferIn = r.scanColumns.dBufferOut) ∧
    satGet r SATMemory.D_OUT =
      (if s.transposed then r.scanColumns.dBufferOut else r.transpose2.dBufferOut) ∧
    satRun r evs ev =
      scanRun r.scanRows evs none ++ transposeRun r.transpose1 [] none ++
      scanRun r.scanColumns [] none ++
      (if s.transposed then [] else transposeRun r.transpose2 [] ev) := by
  subst hr
  cases htr : s.transposed <;>
    simp [satInit, satGet, satRun, htr,
      satStaging_transposed, satStaging_scanRows, satStaging_scanColumns,
      satStaging_transpose1, satStaging_transpose2,
      scanInit_keeps_dIn, scanInit_dOut_ne,
      transposeInit_keeps_dIn, transposeInit_keeps_dOut]

/-- Witness for `sat_init_composes_scan_transpose_scan` on a fresh
non-transposed SAT: the second transpose is wired to the column scan. -/
theorem sat_init_composes_scan_transpose_scan_witness :
    ((satInit 16 16 1 Staging.NONE (SATSt.construct false 8 0) 0).1.transpose2.dBufferIn
      = (satInit 16 16 1 Staging.NONE (SATSt.construct false 8 0) 0).1.scanColumns.dBufferOut) ∧
    satGet (satInit 16 16 1 Staging.NONE (SATSt.construct false 8 0) 0).1 SATMemory.D_OUT
      = (satInit 16 16 1 Staging.NONE (SATSt.construct false 8 0) 0).1.transpose2.dBufferOut := by
  have hth := sat_init_composes_scan_transpose_scan 16 16 1 Staging.NONE
    (SATSt.construct false 8 0) 0 [] none
    ((satInit 16 16 1 Staging.NONE (SATSt.construct false 8 0) 0).1) rfl
  refine ⟨hth.2.2.2.1 rfl, ?_⟩
  have hget := hth.2.2.2.2.1
  simpa using hget

/-! ## Preservation lemmas through the composite inits -/

/-- `SAT::init` maintains a row-scan input buffer that is already backed
(it is the composite's `D_IN`). -/
theorem satInit_keeps_scanRows_dIn (w h : Nat) (sc : Rat) (stg : Staging)
    (s : SATSt) (n : Nat) (hin : s.scanRows.dBufferIn ≠ none) :
    (satInit w h sc stg s n).1.scanRows.dBufferIn = s.scanRows.dBufferIn := by
  cases htr : s.transposed <;>
    simp [satInit, htr, satStaging_transposed, satStaging_scanRows,
      scanInit_keeps_dIn, hin]

/-- `BoxFilterSAT::init`'s staging-buffer creation leaves the `sat` child
alone. -/
theorem bfsatStaging_sat (stg : Staging) (s : BFSATSt) (n : Nat) :
    (bfsatStagingSetup stg s n).1.sat = s.sat := by
  cases stg <;> rfl

/-- `BoxFilterSAT::init`'s staging-buffer creation leaves the output
device buffer alone. -/
theorem bfsatStaging_dOut (stg : Staging) (s : BFSATSt) (n : Nat) :
    (bfsatStagingSetup stg s n).1.dBufferOut = s.dBufferOut := by
  cases stg <;> rfl

/-- `BoxFilterSAT::init`'s staging-buffer creation leaves the queue
alone. -/
theorem bfsatStaging_queue (stg : Staging) (s : BFSATSt) (n : Nat) :
    (bfsatStagingSetup stg s n).1.queue = s.queue := by
  cases stg <;> rfl

/-- `BoxFilterSAT::init` maintains an input buffer handle that is already
backed (the handle lives in `sat.scanRows`). -/
theorem bfsatInit_keeps_input (w h : Nat) (radius : Int) (sc : Rat)
    (stg : Staging) (s : BFSATSt) (n : Nat)
    (hin : s.sat.scanRows.dBufferIn ≠ none) :
    (bfsatInit w h radius sc stg s n).1.sat.scanRows.dBufferIn
      = s.sat.scanRows.dBufferIn := by
  simp [bfsatInit, bfsatStaging_sat, satInit_keeps_scanRows_dIn, hin]

/-- `BoxFilterSAT::init` maintains an output device buffer that is
already backed. -/
theorem bfsatInit_keeps_dOut (w h : Nat) (radius : Int) (sc : Rat)
    (stg : Staging) (s : BFSATSt) (n : Nat) (hout : s.dBufferOut ≠ none) :
    (bfsatInit w h radius sc stg s n).1.dBufferOut = s.dBufferOut := by
  simp [bfsatInit, bfsatStaging_dOut, hout]

/-- `BoxFilterSAT::init` does not change which queue the stage enqueues
on. -/
theorem bfsatInit_queue (w h : Nat) (radius : Int) (sc : Rat)
    (stg : Staging) (s : BFSATSt) (n : Nat) :
    (bfsatInit w h radius sc stg s n).1.queue = s.queue := by
  simp [bfsatInit, bfsatStaging_queue]

/-- `Pown::init` maintains an input device buffer that is already
backed. -/
theorem pownInit_keeps_dIn (w h : Nat) (nP : Int) (stg : Staging)
    (s : PownSt) (n : Nat) (hin : s.dBufferIn ≠ none) :
    (pownInit w h nP stg s n).1.dBufferIn = s.dBufferIn := by
  cases stg <;> simp [pownInit, hin]

/-- `Pown::init` maintains an output device buffer that is already
backed. -/
theorem pownInit_keeps_dOut (w h : Nat) (nP : Int) (stg : Staging)
    (s : PownSt) (n : Nat) (hout : s.dBufferOut ≠ none) :
    (pownInit w h nP stg s n).1.dBufferOut = s.dBufferOut := by
  cases stg <;> simp [pownInit, hout]

/-- `Pown::init` stores the requested power. -/
theorem pownInit_n (w h : Nat) (nP : Int) (stg : Staging)
    (s : PownSt) (n : Nat) : (pownInit w h nP stg s n).1.n = nP := by
  cases stg <;> simp [pownInit]

/-- `Pown::init` does not change which queue the stage enqueues on. -/
theorem pownInit_queue (w h : Nat) (nP : Int) (stg : Staging)
    (s : PownSt) (n : Nat) : (pownInit w h nP stg s n).1.queue = s.queue := by
  cases stg <;> simp [pownInit]

/-- `GuidedFilter<I_EQ_P>::init`'s staging-buffer creation leaves the
input device buffer alone. -/
theorem gfStaging_dIn (stg : Staging) (s : GFSt) (n : Nat) :
    (gfStagingSetup stg s n).1.dBufferIn = s.dBufferIn := by
  cases stg <;> rfl

/-- `GuidedFilter<I_EQ_P>::init`'s staging-buffer creation leaves the
output device buffer alone. -/
theorem gfStaging_dOut (stg : Staging) (s : GFSt) (n : Nat) :
    (gfStagingSetup stg s n).1.dBufferOut = s.dBufferOut := by
  cases stg <;> rfl

/-- `GuidedFilter<I_EQ_P>::init`'s staging-buffer creation leaves the
`mean_p` child alone. -/
theorem gfStaging_mean_p (stg : Staging) (s : GFSt) (n : Nat) :
    (gfStagingSetup stg s n).1.mean_p = s.mean_p := by
  cases stg <;> rfl

/-- `GuidedFilter<I_EQ_P>::init`'s staging-buffer creation leaves the
`mean_p2` child alone. -/
theorem gfStaging_mean_p2 (stg : Staging) (s : GFSt) (n : Nat) :
    (gfStagingSetup stg s n).1.mean_p2 = s.mean_p2 := by
  cases stg <;> rfl

/-- `GuidedFilter<I_EQ_P>::init`'s staging-buffer creation leaves the
`mean_a` child alone. -/
theorem gfStaging_mean_a (stg : Staging) (s : GFSt) (n : Nat) :
    (gfStagingSetup stg s n).1.mean_a = s.mean_a := by
  cases stg <;> rfl

/-- `GuidedFilter<I_EQ_P>::init`'s staging-buffer creation leaves the
`mean_b` child alone. -/
theorem gfStaging_mean_b (stg : Staging) (s : GFSt) (n : Nat) :
    (gfStagingSetup stg s n).1.mean_b = s.mean_b := by
  cases stg <;> rfl

/-- `GuidedFilter<I_EQ_P>::init`'s staging-buffer creation leaves the
`squared` child alone. -/
theorem gfStaging_squared (stg : Staging) (s : GFSt) (n : Nat) :
    (gfStagingSetup stg s n).1.squared = s.squared := by
  cases stg <;> rfl

/-- `GuidedFilter<I_EQ_P>::init`'s staging-buffer creation leaves the
`gf_ab` kernel alone. -/
theorem gfStaging_ab (stg : Staging) (s : GFSt) (n : Nat) :
    (gfStagingSetup stg s n).1.ab = s.ab := by
  cases stg <;> rfl

/-- `GuidedFilter<I_EQ_P>::init`'s staging-buffer creation leaves the
`gf_q` kernel alone. -/
theorem gfStaging_q (stg : Staging) (s : GFSt) (n : Nat) :
    (gfStagingSetup stg s n).1.q = s.q := by
  cases stg <;> rfl

/-! ## Theorems about the self-guided GuidedFilter dataflow -/

/-- After `init`, `mean_p` still enqueues on queue 0, as constructed. -/
theorem gfInit_mean_p_queue (w h : Nat) (radius : Int) (eps : Rat) (z : Int)
    (bs os : Rat) (stg : Staging) (wgM n : Nat) :
    (gfInit w h radius eps z bs os stg (GFSt.construct wgM) n).1.mean_p.queue
      = 0 := by
  simp [gfInit, bfsatInit_queue, gfStaging_mean_p, bfsatSetInput,
    GFSt.construct, BFSATSt.construct]

/-- After `init`, `squared` still enqueues on queue 1, as constructed. -/
theorem gfInit_squared_queue (w h : Nat) (radius : Int) (eps : Rat) (z : Int)
    (bs os : Rat) (stg : Staging) (wgM n : Nat) :
    (gfInit w h radius eps z bs os stg (GFSt.construct wgM) n).1.squared.queue
      = 1 := by
  simp [gfInit, pownInit_queue, gfStaging_squared, GFSt.construct]

/-- After `init`, `mean_p2` still enqueues on queue 1, as constructed. -/
theorem gfInit_mean_p2_queue (w h : Nat) (radius : Int) (eps : Rat) (z : Int)
    (bs os : Rat) (stg : Staging) (wgM n : Nat) :
    (gfInit w h radius eps z bs os stg (GFSt.construct wgM) n).1.mean_p2.queue
      = 1 := by
  simp [gfInit, bfsatInit_queue, gfStaging_mean_p2, bfsatSetInput,
    GFSt.construct, BFSATSt.construct]

/-- After `init`, `mean_a` still enqueues on queue 0, as constructed. -/
theorem gfInit_mean_a_queue (w h : Nat) (radius : Int) (eps : Rat) (z : Int)
    (bs os : Rat) (stg : Staging) (wgM n : Nat) :
    (gfInit w h radius eps z bs os stg (GFSt.construct wgM) n).1.mean_a.queue
      = 0 := by
  simp [gfInit, bfsatInit_queue, gfStaging_mean_a, bfsatSetInput,
    GFSt.construct, BFSATSt.construct]

/-- After `init`, `mean_b` still enqueues on queue 1, as constructed. -/
theorem gfInit_mean_b_queue (w h : Nat) (radius : Int) (eps : Rat) (z : Int)
    (bs os : Rat) (stg : Staging) (wgM n : Nat) :
    (gfInit w h radius eps z bs os stg (GFSt.construct wgM) n).1.mean_b.queue
      = 1 := by
  simp [gfInit, bfsatInit_queue, gfStaging_mean_b, bfsatSetInput,
    GFSt.construct, BFSATSt.construct]

/-- Claim C4: after `GuidedFilter<I_EQ_P>::init`, the kernels compute the
self-guided dataflow — `mean_p` reads `D_IN`, `squared` raises `D_IN` to
the power 2, `mean_p2` reads `squared`'s output, `gf_ab` consumes the
`mean_p`/`mean_p2` outputs with `eps` and produces the `a`/`b` buffers,
`mean_a`/`mean_b` read those, and `gf_q` consumes `D_IN` and the
`mean_a`/`mean_b` outputs (with `zero_out` and `outputScaling`) and
writes `D_OUT` — and `run` enqueues these seven operations so that every
consumer is ordered after its producers (`hb`): `mean_p` before `gf_ab`
(same queue), `squared` before `mean_p2` (same queue), `mean_p2` before
`gf_ab` (`p2Event`), `gf_ab` before `mean_a` (same queue), `gf_ab` before
`mean_b` (`abEvent`), `mean_a` before `gf_q` (same queue) and `mean_b`
before `gf_q` (`mbEvent`). -/
theorem gf_init_wires_self_guided_dataflow
    (w h : Nat) (radius : Int) (eps : Rat) (z : Int) (bs os : Rat)
    (stg : Staging) (wgM n : Nat) (evs : List Nat) (ev : Option Nat)
    (s' : GFSt)
    (hs' : s' = (gfInit w h radius eps z bs os stg (GFSt.construct wgM) n).1) :
    (s'.mean_p.sat.scanRows.dBufferIn = s'.dBufferIn ∧
      s'.squared.dBufferIn = s'.dBufferIn ∧
      s'.squared.n = 2 ∧
      s'.mean_p2.sat.scanRows.dBufferIn = s'.squared.dBufferOut ∧
      getArg s'.ab 0 = some (KArg.buf s'.mean_p.dBufferOut) ∧
      getArg s'.ab 1 = some (KArg.buf s'.mean_p2.dBufferOut) ∧
      getArg s'.ab 2 = some (KArg.buf s'.dBufferOutA) ∧
      getArg s'.ab 3 = some (KArg.buf s'.dBufferOutB) ∧
      getArg s'.ab 4 = some (KArg.float eps) ∧
      s'.mean_a.sat.scanRows.dBufferIn = s'.dBufferOutA ∧
      s'.mean_b.sat.scanRows.dBufferIn = s'.dBufferOutB ∧
      getArg s'.q 0 = some (KArg.buf s'.dBufferIn) ∧
      getArg s'.q 1 = some (KArg.buf s'.mean_a.dBufferOut) ∧
      getArg s'.q 2 = some (KArg.buf s'.mean_b.dBufferOut) ∧
      getArg s'.q 3 = some (KArg.buf s'.dBufferOut) ∧
      getArg s'.q 4 = some (KArg.int z) ∧
      getArg s'.q 5 = some (KArg.float os)) ∧
    (gfRunOps s' evs ev).map GFOp.node =
      [GFNode.mean_p, GFNode.squared, GFNode.mean_p2, GFNode.ab,
       GFNode.mean_a, GFNode.mean_b, GFNode.q] ∧
    hb (gfRunOps s' evs ev) 0 3 ∧
    hb (gfRunOps s' evs ev) 1 2 ∧
    hb (gfRunOps s' evs ev) 2 3 ∧
    hb (gfRunOps s' evs ev) 3 4 ∧
    hb (gfRunOps s' evs ev) 3 5 ∧
    hb (gfRunOps s' evs ev) 4 6 ∧
    hb (gfRunOps s' evs ev) 5 6 := by
  subst hs'
  have hqp := gfInit_mean_p_queue w h radius eps z bs os stg wgM n
  have hqsq := gfInit_squared_queue w h radius eps z bs os stg wgM n
  have hqp2 := gfInit_mean_p2_queue w h radius eps z bs os stg wgM n
  have hqa := gfInit_mean_a_queue w h radius eps z bs os stg wgM n
  refine ⟨?_, ?_, ?_, ?_, ?_, ?_, ?_, ?_, ?_⟩
  · simp [gfInit, gfStaging_dIn, gfStaging_dOut, gfStaging_mean_p,
      gfStaging_mean_p2, gfStaging_mean_a, gfStaging_mean_b, gfStaging_squared,
      gfStaging_ab, gfStaging_q, bfsatInit_keeps_input, bfsatInit_keeps_dOut,
      pownInit_keeps_dIn, pownInit_keeps_dOut, pownInit_n, bfsatSetInput,
      setArg_getArg, setArg_getArg_ne]
  · simp [gfRunOps]
  · refine Relation.TransGen.single ⟨_, _, rfl, rfl, by omega, Or.inl ?_⟩
    simp [gfRunOps, hqp]
  · refine Relation.TransGen.single ⟨_, _, rfl, rfl, by omega, Or.inl ?_⟩
    simp [gfRunOps, hqsq, hqp2]
  · refine Relation.TransGen.single ⟨_, _, rfl, rfl, by omega,
      Or.inr ⟨p2Ev, ?_, ?_⟩⟩ <;> simp [gfRunOps]
  · refine Relation.TransGen.single ⟨_, _, rfl, rfl, by omega, Or.inl ?_⟩
    simp [gfRunOps, hqa]
  · refine Relation.TransGen.single ⟨_, _, rfl, rfl, by omega,
      Or.inr ⟨abEv, ?_, ?_⟩⟩ <;> simp [gfRunOps]
  · refine Relation.TransGen.single ⟨_, _, rfl, rfl, by omega, Or.inl ?_⟩
    simp [gfRunOps, hqa]
  · refine Relation.TransGen.single ⟨_, _, rfl, rfl, by omega,
      Or.inr ⟨mbEv, ?_, ?_⟩⟩ <;> simp [gfRunOps]

/-- Witness for `gf_init_wires_self_guided_dataflow` at a fresh 16 x 16
stage: `squared` computes the power 2, and `gf_ab` is ordered after
`mean_p2` across queues. -/
theorem gf_init_wires_self_guided_dataflow_witness :
    (gfInit 16 16 1 1 0 1 1 Staging.NONE (GFSt.construct 8) 0).1.squared.n = 2 ∧
    hb (gfRunOps (gfInit 16 16 1 1 0 1 1 Staging.NONE (GFSt.construct 8) 0).1
      [] none) 2 3 := by
  have hth := gf_init_wires_self_guided_dataflow 16 16 1 1 0 1 1 Staging.NONE
    8 0 [] none _ rfl
  exact ⟨hth.1.2.2.1, hth.2.2.2.2.1⟩

/-- Claim C5: in every `GuidedFilter<I_EQ_P>::run` invocation, the seven
operations sit on queues `[0, 1, 1, 0, 0, 1, 0]`; the only cross-queue
producer/consumer pairs are `mean_p2` (queue 1) into `gf_ab` (queue 0),
`gf_ab` (queue 0) into `mean_b` (queue 1) and `mean_b` (queue 1) into
`gf_q` (queue 0), and each consumer's wait-list holds exactly the
producer's completion event (`p2Event`, `abEvent`, `mbEvent`); the
remaining producer/consumer pairs (`mean_p` into `gf_ab`, `squared` into
`mean_p2`, `gf_ab` into `mean_a`, `mean_a` into `gf_q`) share a queue and
rely on in-order submission. -/
theorem gf_run_cross_queue_waitlists
    (w h : Nat) (radius : Int) (eps : Rat) (z : Int) (bs os : Rat)
    (stg : Staging) (wgM n : Nat) (evs : List Nat) (ev : Option Nat)
    (s' : GFSt)
    (hs' : s' = (gfInit w h radius eps z bs os stg (GFSt.construct wgM) n).1) :
    (gfRunOps s' evs ev).map GFOp.queue = [0, 1, 1, 0, 0, 1, 0] ∧
    (gfRunOps s' evs ev).map GFOp.waits =
      [evs, evs, [], [p2Ev], [], [abEv], [mbEv]] ∧
    (gfRunOps s' evs ev).map GFOp.signal =
      [none, none, some p2Ev, some abEv, none, some mbEv, ev] := by
  subst hs'
  refine ⟨?_, ?_, ?_⟩
  · simp [gfRunOps, gfInit_mean_p_queue, gfInit_squared_queue,
      gfInit_mean_p2_queue, gfInit_mean_a_queue, gfInit_mean_b_queue]
  · simp [gfRunOps]
  · simp [gfRunOps]

/-- Witness for `gf_run_cross_queue_waitlists` at a fresh 16 x 16 stage
with wait-list `[9]` and out-event 7. -/
theorem gf_run_cross_queue_waitlists_witness :
    (gfRunOps (gfInit 16 16 1 1 0 1 1 Staging.NONE (GFSt.construct 8) 0).1
        [9] (some 7)).map GFOp.queue = [0, 1, 1, 0, 0, 1, 0] ∧
    (gfRunOps (gfInit 16 16 1 1 0 1 1 Staging.NONE (GFSt.construct 8) 0).1
        [9] (some 7)).map GFOp.waits =
      [[9], [9], [], [p2Ev], [], [abEv], [mbEv]] := by
  have hth := gf_run_cross_queue_waitlists 16 16 1 1 0 1 1 Staging.NONE
    8 0 [9] (some 7) _ rfl
  exact ⟨hth.1, hth.2.1⟩
